import Mathlib

/-!
# HD44780 character-LCD driver (4-bit bit-banged mode)

A shallow embedding of `lcd_hd44780.c`.  Every call the driver makes to an
external collaborator (GPIO layer, scheduler delay, semaphore, allocator) is
recorded as an `Event` appended to the trace held in the machine state `St`.
The results of those calls are supplied by an environment `Env`.  The
diagnostic log written by `LCD_CHECK` has no effect on control flow and is
not recorded.
-/

namespace LcdHd44780

/-! ## Constants and types taken from headers -/

/-- Modelled from the spec: the success value of `stm_err_t`, declared in header
`stm_err.h`, which is not among the sources.  The spec only tells success from
failure; the value is zero because the driver tests every result with the C
operator `!`. -/
def STM_OK : Int := 0

/-- Modelled from the spec: the failure value of `stm_err_t`, declared in header
`stm_err.h`, which is not among the sources; some nonzero value. -/
def STM_FAIL : Int := -1

/-- The value of `LCD_TICK_DELAY_DEFAULT`. -/
def LCD_TICK_DELAY_DEFAULT : Nat := 50

/-- Pin map `lcd_hd44780_pin_t`: a (port, number) pair for each of the seven
lines.  Ports and numbers are the raw enumerator values. -/
structure lcd_hd44780_pin_t where
  gpio_port_rs : Nat
  gpio_num_rs : Nat
  gpio_port_rw : Nat
  gpio_num_rw : Nat
  gpio_port_en : Nat
  gpio_num_en : Nat
  gpio_port_d4 : Nat
  gpio_num_d4 : Nat
  gpio_port_d5 : Nat
  gpio_num_d5 : Nat
  gpio_port_d6 : Nat
  gpio_num_d6 : Nat
  gpio_port_d7 : Nat
  gpio_num_d7 : Nat
deriving DecidableEq, Repr

/-- The pin mode the driver requests; only the enumerator it names. -/
inductive gpio_mode_t where
  | GPIO_OUTPUT_PP
deriving DecidableEq, Repr

/-- The pull mode the driver requests; only the enumerator it names. -/
inductive gpio_reg_pull_mode_t where
  | GPIO_REG_PULL_NONE
deriving DecidableEq, Repr

/-- Argument block of `gpio_config`. -/
structure gpio_cfg_t where
  gpio_port : Nat
  gpio_num : Nat
  mode : gpio_mode_t
  reg_pull_mode : gpio_reg_pull_mode_t
deriving DecidableEq, Repr

/-! ## Events, environment, state -/

/-- One call made by the driver to an external collaborator. -/
inductive Event where
  /-- A call `gpio_config(&cfg)`. -/
  | gpioConfig (cfg : gpio_cfg_t)
  /-- A call `gpio_set_level(port, num, level)`. -/
  | setLevel (port num : Nat) (level : Bool)
  /-- A call `vTaskDelay(ticks)`. -/
  | delay (ticks : Nat)
  /-- A call `xSemaphoreTake(lock, portMAX_DELAY)` and whether it returned `pdPASS`. -/
  | take (lock : Nat) (passed : Bool)
  /-- A call `xSemaphoreGive(lock)`. -/
  | give (lock : Nat)
  /-- A call `calloc(1, sizeof(lcd_hd44780_t))` and whether it returned storage. -/
  | calloc (nonNull : Bool)
  /-- A call `free(handle)`. -/
  | free
  /-- A call `xSemaphoreCreateMutex()` and the semaphore it returned. -/
  | mutexCreate (lock : Nat)
deriving DecidableEq, Repr

/-- Whether the event is a GPIO call, whose result the driver receives. -/
def Event.isGpio : Event → Bool
  | .gpioConfig _ => true
  | .setLevel _ _ _ => true
  | _ => false

/-- What the external collaborators answer. -/
structure Env where
  /-- Result (`stm_err_t`) of the GPIO call with the given running number. -/
  gpio : Nat → Int
  /-- Whether the `xSemaphoreTake` call with the given running number returns `pdPASS`. -/
  take : Nat → Bool
  /-- Whether `calloc` returns storage. -/
  callocOk : Bool
  /-- The semaphore returned by `xSemaphoreCreateMutex`. -/
  newMutex : Nat
  /-- The value of `portTICK_PERIOD_MS`. -/
  portTICK_PERIOD_MS : Nat

/-- Machine state: the calls made so far and the running numbers of the next
GPIO call and the next semaphore take. -/
structure St where
  trace : List Event
  gpioCalls : Nat
  takes : Nat
deriving DecidableEq, Repr

/-- The call `gpio_config(&cfg)`. -/
def gpio_config (env : Env) (cfg : gpio_cfg_t) (s : St) : Int × St :=
  (env.gpio s.gpioCalls,
   { s with trace := s.trace ++ [Event.gpioConfig cfg], gpioCalls := s.gpioCalls + 1 })

/-- The call `gpio_set_level(port, num, level)`. -/
def gpio_set_level (env : Env) (port num : Nat) (level : Bool) (s : St) : Int × St :=
  (env.gpio s.gpioCalls,
   { s with trace := s.trace ++ [Event.setLevel port num level], gpioCalls := s.gpioCalls + 1 })

/-- The call `vTaskDelay(ticks)`. -/
def vTaskDelay (ticks : Nat) (s : St) : St :=
  { s with trace := s.trace ++ [Event.delay ticks] }

/-- The C operator `!` applied to the `stm_err_t` result of a call. -/
def cnot (call : St → Int × St) (s : St) : Bool × St :=
  ((call s).1 == 0, (call s).2)

/-- The macro `LCD_CHECK(a, str, action)`, that is `if(!a) { log; action; }`,
followed by the rest of the function body. -/
def LCD_CHECK {α : Type} (s : St) (a : St → Bool × St) (action : St → α) (rest : St → α) : α :=
  if !(a s).1 then action (a s).2 else rest (a s).2

/-- The action `return STM_FAIL`. -/
def return_STM_FAIL (s : St) : Int × St := (STM_FAIL, s)

/-- Conversion of an integer expression to C `bool`. -/
def to_bool (v : Nat) : Bool := v != 0

/-! ## The driver -/

/-- The function `_write_cmd_4bit(pin, cmd)`. -/
def _write_cmd_4bit (env : Env) (pin : lcd_hd44780_pin_t) (cmd : Nat) (s : St) : Int × St :=
  let nibble_h := cmd >>> 4 &&& 0x0F
  let nibble_l := cmd &&& 0x0F
  LCD_CHECK s (cnot (gpio_set_level env pin.gpio_port_rs pin.gpio_num_rs false)) return_STM_FAIL fun s =>
  LCD_CHECK s (cnot (gpio_set_level env pin.gpio_port_rw pin.gpio_num_rw false)) return_STM_FAIL fun s =>
  let bit_data := to_bool ((nibble_h >>> 0) &&& 0x01)
  LCD_CHECK s (cnot (gpio_set_level env pin.gpio_port_d4 pin.gpio_num_d4 bit_data)) return_STM_FAIL fun s =>
  let bit_data := to_bool ((nibble_h >>> 1) &&& 0x01)
  LCD_CHECK s (cnot (gpio_set_level env pin.gpio_port_d5 pin.gpio_num_d5 bit_data)) return_STM_FAIL fun s =>
  let bit_data := to_bool ((nibble_h >>> 2) &&& 0x01)
  LCD_CHECK s (cnot (gpio_set_level env pin.gpio_port_d6 pin.gpio_num_d6 bit_data)) return_STM_FAIL fun s =>
  let bit_data := to_bool ((nibble_h >>> 3) &&& 0x01)
  LCD_CHECK s (cnot (gpio_set_level env pin.gpio_port_d7 pin.gpio_num_d7 bit_data)) return_STM_FAIL fun s =>
  LCD_CHECK s (cnot (gpio_set_level env pin.gpio_port_en pin.gpio_num_en true)) return_STM_FAIL fun s =>
  let s := vTaskDelay (1 / env.portTICK_PERIOD_MS) s
  LCD_CHECK s (cnot (gpio_set_level env pin.gpio_port_en pin.gpio_num_en false)) return_STM_FAIL fun s =>
  let s := vTaskDelay (1 / env.portTICK_PERIOD_MS) s
  let bit_data := to_bool ((nibble_l >>> 0) &&& 0x01)
  LCD_CHECK s (cnot (gpio_set_level env pin.gpio_port_d4 pin.gpio_num_d4 bit_data)) return_STM_FAIL fun s =>
  let bit_data := to_bool ((nibble_l >>> 1) &&& 0x01)
  LCD_CHECK s (cnot (gpio_set_level env pin.gpio_port_d5 pin.gpio_num_d5 bit_data)) return_STM_FAIL fun s =>
  let bit_data := to_bool ((nibble_l >>> 2) &&& 0x01)
  LCD_CHECK s (cnot (gpio_set_level env pin.gpio_port_d6 pin.gpio_num_d6 bit_data)) return_STM_FAIL fun s =>
  let bit_data := to_bool ((nibble_l >>> 3) &&& 0x01)
  LCD_CHECK s (cnot (gpio_set_level env pin.gpio_port_d7 pin.gpio_num_d7 bit_data)) return_STM_FAIL fun s =>
  LCD_CHECK s (cnot (gpio_set_level env pin.gpio_port_en pin.gpio_num_en true)) return_STM_FAIL fun s =>
  let s := vTaskDelay (1 / env.portTICK_PERIOD_MS) s
  LCD_CHECK s (cnot (gpio_set_level env pin.gpio_port_en pin.gpio_num_en false)) return_STM_FAIL fun s =>
  let s := vTaskDelay (1 / env.portTICK_PERIOD_MS) s
  (STM_OK, s)

/-- The function `_write_data_4bit(pin, data)`. -/
def _write_data_4bit (env : Env) (pin : lcd_hd44780_pin_t) (data : Nat) (s : St) : Int × St :=
  let nibble_h := data >>> 4 &&& 0x0F
  let nibble_l := data &&& 0x0F
  LCD_CHECK s (cnot (gpio_set_level env pin.gpio_port_rs pin.gpio_num_rs true)) return_STM_FAIL fun s =>
  LCD_CHECK s (cnot (gpio_set_level env pin.gpio_port_rw pin.gpio_num_rw false)) return_STM_FAIL fun s =>
  let bit_data := to_bool ((nibble_h >>> 0) &&& 0x01)
  LCD_CHECK s (cnot (gpio_set_level env pin.gpio_port_d4 pin.gpio_num_d4 bit_data)) return_STM_FAIL fun s =>
  let bit_data := to_bool ((nibble_h >>> 1) &&& 0x01)
  LCD_CHECK s (cnot (gpio_set_level env pin.gpio_port_d5 pin.gpio_num_d5 bit_data)) return_STM_FAIL fun s =>
  let bit_data := to_bool ((nibble_h >>> 2) &&& 0x01)
  LCD_CHECK s (cnot (gpio_set_level env pin.gpio_port_d6 pin.gpio_num_d6 bit_data)) return_STM_FAIL fun s =>
  let bit_data := to_bool ((nibble_h >>> 3) &&& 0x01)
  LCD_CHECK s (cnot (gpio_set_level env pin.gpio_port_d7 pin.gpio_num_d7 bit_data)) return_STM_FAIL fun s =>
  LCD_CHECK s (cnot (gpio_set_level env pin.gpio_port_en pin.gpio_num_en true)) return_STM_FAIL fun s =>
  let s := vTaskDelay (1 / env.portTICK_PERIOD_MS) s
  LCD_CHECK s (cnot (gpio_set_level env pin.gpio_port_en pin.gpio_num_en false)) return_STM_FAIL fun s =>
  let s := vTaskDelay (1 / env.portTICK_PERIOD_MS) s
  let bit_data := to_bool ((nibble_l >>> 0) &&& 0x01)
  LCD_CHECK s (cnot (gpio_set_level env pin.gpio_port_d4 pin.gpio_num_d4 bit_data)) return_STM_FAIL fun s =>
  let bit_data := to_bool ((nibble_l >>> 1) &&& 0x01)
  LCD_CHECK s (cnot (gpio_set_level env pin.gpio_port_d5 pin.gpio_num_d5 bit_data)) return_STM_FAIL fun s =>
  let bit_data := to_bool ((nibble_l >>> 2) &&& 0x01)
  LCD_CHECK s (cnot (gpio_set_level env pin.gpio_port_d6 pin.gpio_num_d6 bit_data)) return_STM_FAIL fun s =>
  let bit_data := to_bool ((nibble_l >>> 3) &&& 0x01)
  LCD_CHECK s (cnot (gpio_set_level env pin.gpio_port_d7 pin.gpio_num_d7 bit_data)) return_STM_FAIL fun s =>
  LCD_CHECK s (cnot (gpio_set_level env pin.gpio_port_en pin.gpio_num_en true)) return_STM_FAIL fun s =>
  let s := vTaskDelay (1 / env.portTICK_PERIOD_MS) s
  LCD_CHECK s (cnot (gpio_set_level env pin.gpio_port_en pin.gpio_num_en false)) return_STM_FAIL fun s =>
  let s := vTaskDelay (1 / env.portTICK_PERIOD_MS) s
  (STM_OK, s)

/-- The function `_init_mode_4bit(pin)`. -/
def _init_mode_4bit (env : Env) (pin : lcd_hd44780_pin_t) (s : St) : Int × St :=
  let gpio_cfg (port num : Nat) : gpio_cfg_t :=
    { gpio_port := port, gpio_num := num,
      mode := gpio_mode_t.GPIO_OUTPUT_PP,
      reg_pull_mode := gpio_reg_pull_mode_t.GPIO_REG_PULL_NONE }
  LCD_CHECK s (cnot (gpio_config env (gpio_cfg pin.gpio_port_rs pin.gpio_num_rs))) return_STM_FAIL fun s =>
  LCD_CHECK s (cnot (gpio_config env (gpio_cfg pin.gpio_port_rw pin.gpio_num_rw))) return_STM_FAIL fun s =>
  LCD_CHECK s (cnot (gpio_config env (gpio_cfg pin.gpio_port_en pin.gpio_num_en))) return_STM_FAIL fun s =>
  LCD_CHECK s (cnot (gpio_config env (gpio_cfg pin.gpio_port_d4 pin.gpio_num_d4))) return_STM_FAIL fun s =>
  LCD_CHECK s (cnot (gpio_config env (gpio_cfg pin.gpio_port_d5 pin.gpio_num_d5))) return_STM_FAIL fun s =>
  LCD_CHECK s (cnot (gpio_config env (gpio_cfg pin.gpio_port_d6 pin.gpio_num_d6))) return_STM_FAIL fun s =>
  LCD_CHECK s (cnot (gpio_config env (gpio_cfg pin.gpio_port_d7 pin.gpio_num_d7))) return_STM_FAIL fun s =>
  LCD_CHECK s (cnot (gpio_set_level env pin.gpio_port_rs pin.gpio_num_rs false)) return_STM_FAIL fun s =>
  LCD_CHECK s (cnot (gpio_set_level env pin.gpio_port_rw pin.gpio_num_rw false)) return_STM_FAIL fun s =>
  LCD_CHECK s (cnot (gpio_set_level env pin.gpio_port_en pin.gpio_num_en false)) return_STM_FAIL fun s =>
  LCD_CHECK s (cnot (gpio_set_level env pin.gpio_port_d4 pin.gpio_num_d4 false)) return_STM_FAIL fun s =>
  LCD_CHECK s (cnot (gpio_set_level env pin.gpio_port_d5 pin.gpio_num_d5 false)) return_STM_FAIL fun s =>
  LCD_CHECK s (cnot (gpio_set_level env pin.gpio_port_d6 pin.gpio_num_d6 false)) return_STM_FAIL fun s =>
  LCD_CHECK s (cnot (gpio_set_level env pin.gpio_port_d7 pin.gpio_num_d7 false)) return_STM_FAIL fun s =>
  (STM_OK, s)

/-- Modelled from the spec: the communication-mode enumeration of header
`include/lcd_hd44780.h`, which is not among the sources.  The three modes are
those named by the `switch` in `lcd_hd44780_init`; `other` is any further
value, which reaches the `default` label. -/
inductive lcd_hd44780_comm_mode_t where
  | LCD_HD44780_COMM_MODE_4BIT
  | LCD_HD44780_COMM_MODE_8BIT
  | LCD_HD44780_COMM_MODE_SERIAL
  | other (raw : Nat)
deriving DecidableEq, Repr

/-- Display geometry `lcd_hd44780_size_t`, as the raw enumerator value (the
enumeration is declared in a header that is not among the sources; the driver
only copies the value). -/
abbrev lcd_hd44780_size_t := Nat

/-- Configuration `lcd_hd44780_cfg_t`. -/
structure lcd_hd44780_cfg_t where
  size : lcd_hd44780_size_t
  mode : lcd_hd44780_comm_mode_t
  pin : lcd_hd44780_pin_t
deriving DecidableEq, Repr

/-- Function-pointer type `init_func`. -/
abbrev init_func := Env → lcd_hd44780_pin_t → St → Int × St

/-- Function-pointer type `write_func`. -/
abbrev write_func := Env → lcd_hd44780_pin_t → Nat → St → Int × St

/-- Handle structure `lcd_hd44780_t`.  A function pointer that was never
assigned is `none`. -/
structure lcd_hd44780_t where
  size : lcd_hd44780_size_t
  mode : lcd_hd44780_comm_mode_t
  pin : lcd_hd44780_pin_t
  _write_cmd : Option write_func
  _write_data : Option write_func
  lock : Nat

/-- Ways in which a run leaves the behaviour defined by the C code, or fails
to complete within the steps allowed. -/
inductive Fault where
  /-- A call through a function pointer that was never assigned. -/
  | unsetPointer
  /-- A read beyond the last byte of the supplied string. -/
  | readPastEnd
  /-- The retry loop of `mutex_lock` did not obtain the semaphore within the allowed number of attempts. -/
  | lockAttempts
deriving DecidableEq, Repr

/-- A call through a function pointer. -/
def deref {β α : Type} (p : Option β) (k : β → Except Fault α) : Except Fault α :=
  match p with
  | none => Except.error Fault.unsetPointer
  | some f => k f

/-- The function `_lcd_hd44780_cleanup(handle)`, that is `free(handle)`. -/
def _lcd_hd44780_cleanup (s : St) : St :=
  { s with trace := s.trace ++ [Event.free] }

/-- The action `{_lcd_hd44780_cleanup(handle); return NULL;}`. -/
def cleanup_return_NULL (s : St) : Except Fault (Option lcd_hd44780_t × St) :=
  Except.ok (none, _lcd_hd44780_cleanup s)

/-- The function `lcd_hd44780_init(config)`.  The result `none` is `NULL`.  The
locals `_init_func`, `_write_cmd` and `_write_data` are declared without
initialiser and assigned only in the 4-bit case of the `switch`; `none` is a
pointer that no statement assigned. -/
def lcd_hd44780_init (env : Env) (config : lcd_hd44780_cfg_t) (s : St) :
    Except Fault (Option lcd_hd44780_t × St) :=
  let s := { s with trace := s.trace ++ [Event.calloc env.callocOk] }
  if !env.callocOk then Except.ok (none, s) else
  let ptrs : Option init_func × Option write_func × Option write_func :=
    match config.mode with
    | .LCD_HD44780_COMM_MODE_4BIT => (some _init_mode_4bit, some _write_cmd_4bit, some _write_data_4bit)
    | .LCD_HD44780_COMM_MODE_8BIT => (none, none, none)
    | .LCD_HD44780_COMM_MODE_SERIAL => (none, none, none)
    | .other _ => (none, none, none)
  let _init_func := ptrs.1
  let _write_cmd := ptrs.2.1
  deref _init_func fun f =>
  LCD_CHECK s (cnot (f env config.pin)) cleanup_return_NULL fun s =>
  deref _write_cmd fun f =>
  LCD_CHECK s (cnot (f env config.pin 0x02)) cleanup_return_NULL fun s =>
  let s := vTaskDelay (LCD_TICK_DELAY_DEFAULT / env.portTICK_PERIOD_MS) s
  deref _write_cmd fun f =>
  LCD_CHECK s (cnot (f env config.pin 0x28)) cleanup_return_NULL fun s =>
  let s := vTaskDelay (LCD_TICK_DELAY_DEFAULT / env.portTICK_PERIOD_MS) s
  deref _write_cmd fun f =>
  LCD_CHECK s (cnot (f env config.pin 0x06)) cleanup_return_NULL fun s =>
  let s := vTaskDelay (LCD_TICK_DELAY_DEFAULT / env.portTICK_PERIOD_MS) s
  deref _write_cmd fun f =>
  LCD_CHECK s (cnot (f env config.pin 0x0C)) cleanup_return_NULL fun s =>
  let s := vTaskDelay (LCD_TICK_DELAY_DEFAULT / env.portTICK_PERIOD_MS) s
  deref _write_cmd fun f =>
  LCD_CHECK s (cnot (f env config.pin 0x01)) cleanup_return_NULL fun s =>
  let s := vTaskDelay (LCD_TICK_DELAY_DEFAULT / env.portTICK_PERIOD_MS) s
  let s := { s with trace := s.trace ++ [Event.mutexCreate env.newMutex] }
  Except.ok (some { size := config.size,
                    mode := config.mode,
                    pin := config.pin,
                    _write_cmd := some _write_cmd_4bit,
                    _write_data := some _write_data_4bit,
                    lock := env.newMutex }, s)

/-- The call `xSemaphoreTake(x, portMAX_DELAY)`; the result is whether it returned `pdPASS`. -/
def xSemaphoreTake (env : Env) (x : Nat) (s : St) : Bool × St :=
  (env.take s.takes,
   { s with trace := s.trace ++ [Event.take x (env.take s.takes)], takes := s.takes + 1 })

/-- The macro `mutex_lock(x)`, a loop with empty body
`while (xSemaphoreTake(x, portMAX_DELAY) != pdPASS);`, run for at most `fuel` attempts. -/
def mutex_lock (env : Env) (x : Nat) : Nat → St → Except Fault St
  | 0, _ => Except.error Fault.lockAttempts
  | fuel + 1, s =>
    if (xSemaphoreTake env x s).1 != true then mutex_lock env x fuel (xSemaphoreTake env x s).2
    else Except.ok (xSemaphoreTake env x s).2

/-- The macro `mutex_unlock(x)`, that is `xSemaphoreGive(x)`. -/
def mutex_unlock (x : Nat) (s : St) : St :=
  { s with trace := s.trace ++ [Event.give x] }

/-- The function `lcd_hd44780_clear(handle)`. -/
def lcd_hd44780_clear (env : Env) (fuel : Nat) (handle : lcd_hd44780_t) (s : St) :
    Except Fault (Int × St) :=
  (mutex_lock env handle.lock fuel s).bind fun s =>
  deref handle._write_cmd fun f =>
  let s := (f env handle.pin 0x01 s).2
  let s := vTaskDelay (2 / env.portTICK_PERIOD_MS) s
  let s := mutex_unlock handle.lock s
  Except.ok (STM_OK, s)

/-- The function `lcd_hd44780_home(handle)`. -/
def lcd_hd44780_home (env : Env) (fuel : Nat) (handle : lcd_hd44780_t) (s : St) :
    Except Fault (Int × St) :=
  (mutex_lock env handle.lock fuel s).bind fun s =>
  deref handle._write_cmd fun f =>
  let s := (f env handle.pin 0x02 s).2
  let s := vTaskDelay (2 / env.portTICK_PERIOD_MS) s
  let s := mutex_unlock handle.lock s
  Except.ok (STM_OK, s)

/-- The loop `while (*str) { handle->_write_data(handle->pin, *str); str++; }`
of `lcd_hd44780_write_string`, over the bytes stored from `str` onwards. -/
def write_string_loop (env : Env) (handle : lcd_hd44780_t) : List Nat → St → Except Fault St
  | [], _ => Except.error Fault.readPastEnd
  | c :: str, s =>
    if c != 0 then
      deref handle._write_data fun f =>
      write_string_loop env handle str (f env handle.pin c s).2
    else Except.ok s

/-- The function `lcd_hd44780_write_string(handle, str)`; `str` is the list of
bytes stored from the pointer onwards. -/
def lcd_hd44780_write_string (env : Env) (fuel : Nat) (handle : lcd_hd44780_t) (str : List Nat)
    (s : St) : Except Fault (Int × St) :=
  (mutex_lock env handle.lock fuel s).bind fun s =>
  (write_string_loop env handle str s).bind fun s =>
  let s := mutex_unlock handle.lock s
  Except.ok (STM_OK, s)

/-! ## Event sequences used to state the properties -/

/-- The events of a complete transfer of byte `B` with register select `rs`
when the tick period is `p`: RS, RW, the high nibble on D4..D7 (D4 the lowest
bit), an enable pulse, the low nibble, an enable pulse. -/
def byteTransfer (p : Nat) (pin : lcd_hd44780_pin_t) (rs : Bool) (B : Nat) : List Event :=
  [ Event.setLevel pin.gpio_port_rs pin.gpio_num_rs rs,
    Event.setLevel pin.gpio_port_rw pin.gpio_num_rw false,
    Event.setLevel pin.gpio_port_d4 pin.gpio_num_d4 (B.testBit 4),
    Event.setLevel pin.gpio_port_d5 pin.gpio_num_d5 (B.testBit 5),
    Event.setLevel pin.gpio_port_d6 pin.gpio_num_d6 (B.testBit 6),
    Event.setLevel pin.gpio_port_d7 pin.gpio_num_d7 (B.testBit 7),
    Event.setLevel pin.gpio_port_en pin.gpio_num_en true,
    Event.delay (1 / p),
    Event.setLevel pin.gpio_port_en pin.gpio_num_en false,
    Event.delay (1 / p),
    Event.setLevel pin.gpio_port_d4 pin.gpio_num_d4 (B.testBit 0),
    Event.setLevel pin.gpio_port_d5 pin.gpio_num_d5 (B.testBit 1),
    Event.setLevel pin.gpio_port_d6 pin.gpio_num_d6 (B.testBit 2),
    Event.setLevel pin.gpio_port_d7 pin.gpio_num_d7 (B.testBit 3),
    Event.setLevel pin.gpio_port_en pin.gpio_num_en true,
    Event.delay (1 / p),
    Event.setLevel pin.gpio_port_en pin.gpio_num_en false,
    Event.delay (1 / p) ]

/-- The part of the event sequence `es` that is performed when it is attempted
with `c` the running number of its first GPIO call: everything up to and
including the first GPIO call that does not return zero. -/
def performed (env : Env) : Nat → List Event → List Event
  | _, [] => []
  | c, e :: es =>
    if e.isGpio then
      if env.gpio c = 0 then e :: performed env (c + 1) es else [e]
    else e :: performed env c es

/-- Whether every GPIO call of the event sequence returns zero, with `c` the
running number of its first GPIO call. -/
def succeeds (env : Env) : Nat → List Event → Bool
  | _, [] => true
  | c, e :: es =>
    if e.isGpio then
      if env.gpio c = 0 then succeeds env (c + 1) es else false
    else succeeds env c es

/-- Number of GPIO calls in an event sequence. -/
def gpioCount (es : List Event) : Nat := (es.filter Event.isGpio).length

/-- The prefix of an event sequence that ends with its `n`-th GPIO call. -/
def uptoGpio : Nat → List Event → List Event
  | 0, _ => []
  | _, [] => []
  | n + 1, e :: es => if e.isGpio then e :: uptoGpio n es else e :: uptoGpio (n + 1) es

/-- The state reached from `s` by attempting the event sequence `es`. -/
def St.attempt (env : Env) (s : St) (es : List Event) : St :=
  { trace := s.trace ++ performed env s.gpioCalls es,
    gpioCalls := s.gpioCalls + gpioCount (performed env s.gpioCalls es),
    takes := s.takes }

/-- The `stm_err_t` result of a function that attempts the event sequence `es`. -/
def resultOf (env : Env) (s : St) (es : List Event) : Int :=
  if succeeds env s.gpioCalls es then STM_OK else STM_FAIL

/-- The events of a complete pin configuration: each of the seven lines
programmed as push-pull output without pull resistor, then each driven low. -/
def pinSetup (pin : lcd_hd44780_pin_t) : List Event :=
  [ Event.gpioConfig ⟨pin.gpio_port_rs, pin.gpio_num_rs, .GPIO_OUTPUT_PP, .GPIO_REG_PULL_NONE⟩,
    Event.gpioConfig ⟨pin.gpio_port_rw, pin.gpio_num_rw, .GPIO_OUTPUT_PP, .GPIO_REG_PULL_NONE⟩,
    Event.gpioConfig ⟨pin.gpio_port_en, pin.gpio_num_en, .GPIO_OUTPUT_PP, .GPIO_REG_PULL_NONE⟩,
    Event.gpioConfig ⟨pin.gpio_port_d4, pin.gpio_num_d4, .GPIO_OUTPUT_PP, .GPIO_REG_PULL_NONE⟩,
    Event.gpioConfig ⟨pin.gpio_port_d5, pin.gpio_num_d5, .GPIO_OUTPUT_PP, .GPIO_REG_PULL_NONE⟩,
    Event.gpioConfig ⟨pin.gpio_port_d6, pin.gpio_num_d6, .GPIO_OUTPUT_PP, .GPIO_REG_PULL_NONE⟩,
    Event.gpioConfig ⟨pin.gpio_port_d7, pin.gpio_num_d7, .GPIO_OUTPUT_PP, .GPIO_REG_PULL_NONE⟩,
    Event.setLevel pin.gpio_port_rs pin.gpio_num_rs false,
    Event.setLevel pin.gpio_port_rw pin.gpio_num_rw false,
    Event.setLevel pin.gpio_port_en pin.gpio_num_en false,
    Event.setLevel pin.gpio_port_d4 pin.gpio_num_d4 false,
    Event.setLevel pin.gpio_port_d5 pin.gpio_num_d5 false,
    Event.setLevel pin.gpio_port_d6 pin.gpio_num_d6 false,
    Event.setLevel pin.gpio_port_d7 pin.gpio_num_d7 false ]

/-- The events of one step of the controller initialisation when the tick
period is `p`: the transfer of command byte `B` to the command register
followed by one delay of `LCD_TICK_DELAY_DEFAULT / p` ticks. -/
def commandStep (p : Nat) (pin : lcd_hd44780_pin_t) (B : Nat) : List Event :=
  byteTransfer p pin false B ++ [Event.delay (LCD_TICK_DELAY_DEFAULT / p)]

/-- The handle that `lcd_hd44780_init` builds for a configuration. -/
def handleOf (env : Env) (config : lcd_hd44780_cfg_t) : lcd_hd44780_t :=
  { size := config.size, mode := config.mode, pin := config.pin,
    _write_cmd := some _write_cmd_4bit, _write_data := some _write_data_4bit,
    lock := env.newMutex }

/-- The command bytes of the controller initialisation, in order. -/
def initCommands : List Nat := [0x02, 0x28, 0x06, 0x0C, 0x01]

/-- The events of a complete initialisation between the allocation and the
creation of the lock: the pin configuration, then one step per command. -/
def initSequence (p : Nat) (pin : lcd_hd44780_pin_t) : List Event :=
  pinSetup pin ++ initCommands.flatMap (commandStep p pin)

/-- The state with one more event `e` that is not a GPIO call. -/
def St.note (s : St) (e : Event) : St :=
  { s with trace := s.trace ++ [e] }

/-! ## Concrete inputs -/

/-- The pin map of the example application: port A (raw value 0), pins 0, 2,
4, 1, 3, 5, 7 for RS, RW, EN, D4, D5, D6, D7. -/
def examplePin : lcd_hd44780_pin_t :=
  { gpio_port_rs := 0, gpio_num_rs := 0,
    gpio_port_rw := 0, gpio_num_rw := 2,
    gpio_port_en := 0, gpio_num_en := 4,
    gpio_port_d4 := 0, gpio_num_d4 := 1,
    gpio_port_d5 := 0, gpio_num_d5 := 3,
    gpio_port_d6 := 0, gpio_num_d6 := 5,
    gpio_port_d7 := 0, gpio_num_d7 := 7 }

/-- An environment with tick period `p` in which every call succeeds and the
semaphore is free. -/
def envOk (p : Nat) : Env :=
  { gpio := fun _ => STM_OK, take := fun _ => true, callocOk := true,
    newMutex := 1, portTICK_PERIOD_MS := p }

/-- An environment with tick period `p` in which the GPIO call with running
number `k` fails and every other call succeeds. -/
def envFailAt (p k : Nat) : Env :=
  { gpio := fun i => if i = k then STM_FAIL else STM_OK, take := fun _ => true,
    callocOk := true, newMutex := 1, portTICK_PERIOD_MS := p }

/-- A handle as `lcd_hd44780_init` builds it: both function pointers bound to
the 4-bit transfer functions. -/
def lcd_hd44780_t.valid (handle : lcd_hd44780_t) : Prop :=
  handle._write_cmd = some _write_cmd_4bit ∧ handle._write_data = some _write_data_4bit

/-- The state reached from `s` when the transfer of each byte of `bytes` with
register select `rs` is attempted in turn, whatever the outcome of the
previous ones. -/
def St.attemptEach (env : Env) (pin : lcd_hd44780_pin_t) (rs : Bool) (s : St)
    (bytes : List Nat) : St :=
  bytes.foldl (fun st b => st.attempt env (byteTransfer env.portTICK_PERIOD_MS pin rs b)) s

/-- The events of taking the semaphore `x` at the attempt number `j + 1`. -/
def lockEvents (x j : Nat) : List Event :=
  List.replicate j (Event.take x false) ++ [Event.take x true]

/-- A call of one of the three operations on a handle, with its argument. -/
inductive Op where
  | clear
  | home
  | write_string (str : List Nat)
deriving DecidableEq, Repr

/-- The call of an operation on a handle. -/
def Op.run (env : Env) (fuel : Nat) (handle : lcd_hd44780_t) :
    Op → St → Except Fault (Int × St)
  | .clear, s => lcd_hd44780_clear env fuel handle s
  | .home, s => lcd_hd44780_home env fuel handle s
  | .write_string str, s => lcd_hd44780_write_string env fuel handle str s

/-- Whether the argument of the call is well formed: a string has a
terminating zero byte. -/
def Op.terminated : Op → Prop
  | .clear => True
  | .home => True
  | .write_string str => 0 ∈ str

/-- The calls of a list of operations on one handle, one after the other. -/
def runOps (env : Env) (fuel : Nat) (handle : lcd_hd44780_t) :
    List Op → St → Except Fault St
  | [], s => Except.ok s
  | op :: ops, s => (op.run env fuel handle s).bind fun r => runOps env fuel handle ops r.2

/-- Lock discipline of a sequence of events with respect to the semaphore
`x`, starting with the semaphore held or not as `held` says: a take occurs
only while the semaphore is not held and obtains it exactly when it passes,
a give occurs only while it is held, every GPIO level call and every delay
occurs while it is held, no other event occurs, and the semaphore is not held
at the end.  The result is the number of releases, or `none` if the
discipline is broken. -/
def lockCycles (x : Nat) : Bool → List Event → Option Nat
  | held, [] => if held then none else some 0
  | held, e :: es =>
    match e with
    | .take l passed => if l = x ∧ held = false then lockCycles x passed es else none
    | .give l => if l = x ∧ held = true then (lockCycles x false es).map (· + 1) else none
    | .setLevel _ _ _ => if held then lockCycles x true es else none
    | .delay _ => if held then lockCycles x true es else none
    | _ => none

/-- Whether the event is a GPIO level call or a delay. -/
def Event.isPinWork : Event → Bool
  | .setLevel _ _ _ => true
  | .delay _ => true
  | _ => false

/-- The handle of the example application. -/
def exampleHandle : lcd_hd44780_t :=
  handleOf (envOk 1) ⟨0, lcd_hd44780_comm_mode_t.LCD_HD44780_COMM_MODE_4BIT, examplePin⟩

/-- The state before any call. -/
def st0 : St := { trace := [], gpioCalls := 0, takes := 0 }

/-! ## Lemmas -/

theorem to_bool_shift_and_one (m i : Nat) : to_bool ((m >>> i) &&& 0x01) = m.testBit i := by
  unfold to_bool Nat.testBit
  rw [Nat.land_comm]

theorem testBit_fifteen (i : Nat) (h : i < 4) : Nat.testBit 15 i = true := by
  interval_cases i <;> decide

theorem bit_of_high_nibble (B i : Nat) (h : i < 4) :
    to_bool (((B >>> 4 &&& 0x0F) >>> i) &&& 0x01) = B.testBit (4 + i) := by
  rw [to_bool_shift_and_one, Nat.testBit_land, Nat.testBit_shiftRight, testBit_fifteen i h]
  simp

theorem bit_of_low_nibble (B i : Nat) (h : i < 4) :
    to_bool (((B &&& 0x0F) >>> i) &&& 0x01) = B.testBit i := by
  rw [to_bool_shift_and_one, Nat.testBit_land, testBit_fifteen i h]
  simp

theorem LCD_CHECK_gpio_set_level {α : Type} (env : Env) (port num : Nat) (level : Bool)
    (s : St) (action rest : St → α) :
    LCD_CHECK s (cnot (gpio_set_level env port num level)) action rest =
      if env.gpio s.gpioCalls = 0 then
        rest { trace := s.trace ++ [Event.setLevel port num level],
               gpioCalls := s.gpioCalls + 1, takes := s.takes }
      else
        action { trace := s.trace ++ [Event.setLevel port num level],
                 gpioCalls := s.gpioCalls + 1, takes := s.takes } := by
  simp only [LCD_CHECK, cnot, gpio_set_level]
  by_cases h : env.gpio s.gpioCalls = 0 <;> simp [h]

theorem LCD_CHECK_gpio_config {α : Type} (env : Env) (cfg : gpio_cfg_t)
    (s : St) (action rest : St → α) :
    LCD_CHECK s (cnot (gpio_config env cfg)) action rest =
      if env.gpio s.gpioCalls = 0 then
        rest { trace := s.trace ++ [Event.gpioConfig cfg],
               gpioCalls := s.gpioCalls + 1, takes := s.takes }
      else
        action { trace := s.trace ++ [Event.gpioConfig cfg],
                 gpioCalls := s.gpioCalls + 1, takes := s.takes } := by
  simp only [LCD_CHECK, cnot, gpio_config]
  by_cases h : env.gpio s.gpioCalls = 0 <;> simp [h]

theorem attempt_nil (env : Env) (s : St) :
    (resultOf env s [], s.attempt env []) = (STM_OK, s) := by
  simp [resultOf, St.attempt, performed, succeeds, gpioCount]

theorem attempt_cons_setLevel (env : Env) (s : St) (port num : Nat) (level : Bool)
    (es : List Event) :
    (resultOf env s (Event.setLevel port num level :: es),
      s.attempt env (Event.setLevel port num level :: es)) =
      if env.gpio s.gpioCalls = 0 then
        (resultOf env { trace := s.trace ++ [Event.setLevel port num level],
                        gpioCalls := s.gpioCalls + 1, takes := s.takes } es,
         St.attempt env { trace := s.trace ++ [Event.setLevel port num level],
                          gpioCalls := s.gpioCalls + 1, takes := s.takes } es)
      else
        return_STM_FAIL { trace := s.trace ++ [Event.setLevel port num level],
                          gpioCalls := s.gpioCalls + 1, takes := s.takes } := by
  by_cases h : env.gpio s.gpioCalls = 0
  · simp [resultOf, St.attempt, performed, succeeds, gpioCount, Event.isGpio, h]
    omega
  · simp [resultOf, St.attempt, performed, succeeds, gpioCount, Event.isGpio, h, return_STM_FAIL]

theorem attempt_cons_gpioConfig (env : Env) (s : St) (cfg : gpio_cfg_t) (es : List Event) :
    (resultOf env s (Event.gpioConfig cfg :: es),
      s.attempt env (Event.gpioConfig cfg :: es)) =
      if env.gpio s.gpioCalls = 0 then
        (resultOf env { trace := s.trace ++ [Event.gpioConfig cfg],
                        gpioCalls := s.gpioCalls + 1, takes := s.takes } es,
         St.attempt env { trace := s.trace ++ [Event.gpioConfig cfg],
                          gpioCalls := s.gpioCalls + 1, takes := s.takes } es)
      else
        return_STM_FAIL { trace := s.trace ++ [Event.gpioConfig cfg],
                          gpioCalls := s.gpioCalls + 1, takes := s.takes } := by
  by_cases h : env.gpio s.gpioCalls = 0
  · simp [resultOf, St.attempt, performed, succeeds, gpioCount, Event.isGpio, h]
    omega
  · simp [resultOf, St.attempt, performed, succeeds, gpioCount, Event.isGpio, h, return_STM_FAIL]

theorem attempt_cons_delay (env : Env) (s : St) (t : Nat) (es : List Event) :
    (resultOf env s (Event.delay t :: es), s.attempt env (Event.delay t :: es)) =
      (resultOf env (vTaskDelay t s) es, St.attempt env (vTaskDelay t s) es) := by
  simp [resultOf, St.attempt, performed, succeeds, gpioCount, Event.isGpio, vTaskDelay]

theorem write_cmd_4bit_eq (env : Env) (pin : lcd_hd44780_pin_t) (B : Nat) (s : St) :
    _write_cmd_4bit env pin B s =
      (resultOf env s (byteTransfer env.portTICK_PERIOD_MS pin false B),
       s.attempt env (byteTransfer env.portTICK_PERIOD_MS pin false B)) := by
  have h0 := bit_of_high_nibble B 0 (by decide)
  have h1 := bit_of_high_nibble B 1 (by decide)
  have h2 := bit_of_high_nibble B 2 (by decide)
  have h3 := bit_of_high_nibble B 3 (by decide)
  have l0 := bit_of_low_nibble B 0 (by decide)
  have l1 := bit_of_low_nibble B 1 (by decide)
  have l2 := bit_of_low_nibble B 2 (by decide)
  have l3 := bit_of_low_nibble B 3 (by decide)
  simp only [Nat.reduceAdd] at h0 h1 h2 h3
  simp only [_write_cmd_4bit, LCD_CHECK_gpio_set_level, h0, h1, h2, h3, l0, l1, l2, l3,
    byteTransfer, attempt_cons_setLevel, attempt_cons_delay, attempt_nil]

theorem write_data_4bit_eq (env : Env) (pin : lcd_hd44780_pin_t) (B : Nat) (s : St) :
    _write_data_4bit env pin B s =
      (resultOf env s (byteTransfer env.portTICK_PERIOD_MS pin true B),
       s.attempt env (byteTransfer env.portTICK_PERIOD_MS pin true B)) := by
  have h0 := bit_of_high_nibble B 0 (by decide)
  have h1 := bit_of_high_nibble B 1 (by decide)
  have h2 := bit_of_high_nibble B 2 (by decide)
  have h3 := bit_of_high_nibble B 3 (by decide)
  have l0 := bit_of_low_nibble B 0 (by decide)
  have l1 := bit_of_low_nibble B 1 (by decide)
  have l2 := bit_of_low_nibble B 2 (by decide)
  have l3 := bit_of_low_nibble B 3 (by decide)
  simp only [Nat.reduceAdd] at h0 h1 h2 h3
  simp only [_write_data_4bit, LCD_CHECK_gpio_set_level, h0, h1, h2, h3, l0, l1, l2, l3,
    byteTransfer, attempt_cons_setLevel, attempt_cons_delay, attempt_nil]

/-! ### Attempted event sequences -/

theorem gpioCount_nil : gpioCount [] = 0 := rfl

theorem gpioCount_cons (e : Event) (es : List Event) :
    gpioCount (e :: es) = (if e.isGpio then 1 else 0) + gpioCount es := by
  by_cases h : e.isGpio = true
  · simp [gpioCount, List.filter_cons, h]; omega
  · simp [gpioCount, List.filter_cons, h]

theorem gpioCount_append (a b : List Event) :
    gpioCount (a ++ b) = gpioCount a + gpioCount b := by
  simp [gpioCount]

theorem succeeds_iff (env : Env) (es : List Event) :
    ∀ c, succeeds env c es = true ↔ ∀ i, i < gpioCount es → env.gpio (c + i) = 0 := by
  induction es with
  | nil => intro c; simp [succeeds, gpioCount]
  | cons e es ih =>
    intro c
    by_cases hg : e.isGpio = true
    · simp only [succeeds, hg, if_true, gpioCount_cons]
      by_cases h0 : env.gpio c = 0
      · simp only [h0, if_true, ih]
        constructor
        · intro h i hi
          rcases Nat.eq_zero_or_pos i with hz | hp
          · subst hz; simpa using h0
          · have := h (i - 1) (by omega)
            have e1 : c + 1 + (i - 1) = c + i := by omega
            rw [e1] at this; exact this
        · intro h i hi
          have := h (i + 1) (by omega)
          have e1 : c + (i + 1) = c + 1 + i := by omega
          rw [e1] at this; exact this
      · simp only [h0, if_false]
        constructor
        · intro h; exact absurd h (by simp)
        · intro h; exact absurd (by simpa using h 0 (by omega)) h0
    · have hg2 : e.isGpio = false := by simpa using hg
      simp only [succeeds, hg2, gpioCount_cons]
      simpa using ih c

theorem performed_of_succeeds (env : Env) (es : List Event) :
    ∀ c, succeeds env c es = true → performed env c es = es := by
  induction es with
  | nil => intro c _; rfl
  | cons e es ih =>
    intro c h
    by_cases hg : e.isGpio = true
    · by_cases h0 : env.gpio c = 0
      · simp only [succeeds, hg, h0, if_true] at h
        simp only [performed, hg, h0, if_true, ih _ h]
      · simp [succeeds, hg, h0] at h
    · simp only [succeeds, hg] at h
      simp only [performed, hg, ih _ h]
      simp

theorem performed_first_failure (env : Env) (es : List Event) :
    ∀ c k, (∀ i, i < k → env.gpio (c + i) = 0) → env.gpio (c + k) ≠ 0 → k < gpioCount es →
      performed env c es = uptoGpio (k + 1) es ∧ succeeds env c es = false := by
  induction es with
  | nil => intro c k _ _ hk; simp [gpioCount] at hk
  | cons e es ih =>
    intro c k hok hbad hk
    by_cases hg : e.isGpio = true
    · rcases Nat.eq_zero_or_pos k with hz | hp
      · subst hz
        have h0 : env.gpio c ≠ 0 := by simpa using hbad
        simp [performed, succeeds, uptoGpio, hg, h0]
      · have h0 : env.gpio c = 0 := by simpa using hok 0 hp
        obtain ⟨j, rfl⟩ : ∃ j, k = j + 1 := ⟨k - 1, by omega⟩
        have hk2 : j < gpioCount es := by
          rw [gpioCount_cons] at hk; simp only [hg, if_true] at hk; omega
        have := ih (c + 1) j
          (fun i hi => by
            have := hok (i + 1) (by omega)
            have e1 : c + (i + 1) = c + 1 + i := by omega
            rw [e1] at this; exact this)
          (by
            have e1 : c + 1 + j = c + (j + 1) := by omega
            rw [e1]; exact hbad)
          hk2
        simp only [performed, succeeds, uptoGpio, hg, h0, if_true, this.1, this.2, and_self]
    · have hk2 : k < gpioCount es := by
        rw [gpioCount_cons] at hk; simpa [hg] using hk
      have := ih c k hok hbad hk2
      simp only [performed, succeeds, uptoGpio, hg, this.1, this.2]
      simp

theorem uptoGpio_filter (es : List Event) :
    ∀ n, (uptoGpio n es).filter Event.isGpio = (es.filter Event.isGpio).take n := by
  induction es with
  | nil => intro n; cases n <;> simp [uptoGpio]
  | cons e es ih =>
    intro n
    cases n with
    | zero => simp [uptoGpio]
    | succ n =>
      by_cases hg : e.isGpio = true
      · simp [uptoGpio, hg, ih]
      · simp [uptoGpio, hg, ih]

theorem uptoGpio_last (es : List Event) :
    ∀ n, 0 < n → n ≤ gpioCount es →
      ∃ e, (uptoGpio n es).getLast? = some e ∧ e.isGpio = true := by
  induction es with
  | nil => intro n h0 hn; simp [gpioCount] at hn; omega
  | cons e es ih =>
    intro n h0 hn
    obtain ⟨m, rfl⟩ : ∃ m, n = m + 1 := ⟨n - 1, by omega⟩
    by_cases hg : e.isGpio = true
    · rcases Nat.eq_zero_or_pos m with hz | hp
      · subst hz
        exact ⟨e, by simp [uptoGpio, hg], hg⟩
      · rw [gpioCount_cons] at hn; simp only [hg, if_true] at hn
        obtain ⟨e2, h1, h2⟩ := ih m hp (by omega)
        refine ⟨e2, ?_, h2⟩
        simp only [uptoGpio, hg, if_true]
        rw [List.getLast?_cons, h1]; rfl
    · have hg2 : e.isGpio = false := by simpa using hg
      rw [gpioCount_cons] at hn; simp only [hg2] at hn
      obtain ⟨e2, h1, h2⟩ := ih (m + 1) h0 (by simpa using hn)
      refine ⟨e2, ?_, h2⟩
      simp only [uptoGpio, hg2]
      simp only [Bool.false_eq_true, if_false]
      rw [List.getLast?_cons, h1]; rfl

theorem uptoGpio_initial_segment (es : List Event) : ∀ n, uptoGpio n es <+: es := by
  induction es with
  | nil => intro n; cases n <;> simp [uptoGpio]
  | cons e es ih =>
    intro n
    cases n with
    | zero => simp [uptoGpio]
    | succ n =>
      by_cases hg : e.isGpio = true
      · simp only [uptoGpio, hg, if_true]
        exact (List.prefix_cons_inj e).2 (ih n)
      · simp only [uptoGpio, hg]
        exact (List.prefix_cons_inj e).2 (ih (n + 1))

theorem gpioCount_byteTransfer (p : Nat) (pin : lcd_hd44780_pin_t) (rs : Bool) (B : Nat) :
    gpioCount (byteTransfer p pin rs B) = 14 := rfl

theorem attempt_of_succeeds (env : Env) (s : St) (es : List Event)
    (h : ∀ i, i < gpioCount es → env.gpio (s.gpioCalls + i) = 0) :
    resultOf env s es = STM_OK ∧
      s.attempt env es =
        { trace := s.trace ++ es, gpioCalls := s.gpioCalls + gpioCount es, takes := s.takes } := by
  have hs := (succeeds_iff env es s.gpioCalls).2 h
  simp [resultOf, St.attempt, hs, performed_of_succeeds env es _ hs]

theorem attempt_of_first_failure (env : Env) (s : St) (es : List Event) (k : Nat)
    (hok : ∀ i, i < k → env.gpio (s.gpioCalls + i) = 0) (hbad : env.gpio (s.gpioCalls + k) ≠ 0)
    (hk : k < gpioCount es) :
    resultOf env s es = STM_FAIL ∧
      s.attempt env es =
        { trace := s.trace ++ uptoGpio (k + 1) es, gpioCalls := s.gpioCalls + (k + 1),
          takes := s.takes } := by
  obtain ⟨h1, h2⟩ := performed_first_failure env es s.gpioCalls k hok hbad hk
  have h3 : gpioCount (uptoGpio (k + 1) es) = k + 1 := by
    unfold gpioCount
    rw [uptoGpio_filter, List.length_take]
    unfold gpioCount at hk
    omega
  simp [resultOf, St.attempt, h1, h2, h3]

/-! ## Byte transfer -/

/-- C1: when the fourteen GPIO calls of a transfer succeed, `_write_cmd_4bit`
and `_write_data_4bit` return `STM_OK` and make exactly these calls: RS (low
for a command, high for data), RW low, bits 4..7 of `B` on D4..D7, an enable
pulse (high, delay, low, delay), bits 0..3 of `B` on D4..D7, a second enable
pulse; and `B` is sixteen times the first nibble plus the second, D4 being
the least significant bit of each. -/
theorem write_4bit_sends_high_nibble_then_low_nibble (env : Env) (pin : lcd_hd44780_pin_t)
    (B : Nat) (s : St) (hB : B < 256)
    (hgpio : ∀ i, i < 14 → env.gpio (s.gpioCalls + i) = STM_OK) :
    (_write_cmd_4bit env pin B s).1 = STM_OK ∧
    (_write_cmd_4bit env pin B s).2.trace = s.trace ++
      [ Event.setLevel pin.gpio_port_rs pin.gpio_num_rs false,
        Event.setLevel pin.gpio_port_rw pin.gpio_num_rw false,
        Event.setLevel pin.gpio_port_d4 pin.gpio_num_d4 (B.testBit 4),
        Event.setLevel pin.gpio_port_d5 pin.gpio_num_d5 (B.testBit 5),
        Event.setLevel pin.gpio_port_d6 pin.gpio_num_d6 (B.testBit 6),
        Event.setLevel pin.gpio_port_d7 pin.gpio_num_d7 (B.testBit 7),
        Event.setLevel pin.gpio_port_en pin.gpio_num_en true,
        Event.delay (1 / env.portTICK_PERIOD_MS),
        Event.setLevel pin.gpio_port_en pin.gpio_num_en false,
        Event.delay (1 / env.portTICK_PERIOD_MS),
        Event.setLevel pin.gpio_port_d4 pin.gpio_num_d4 (B.testBit 0),
        Event.setLevel pin.gpio_port_d5 pin.gpio_num_d5 (B.testBit 1),
        Event.setLevel pin.gpio_port_d6 pin.gpio_num_d6 (B.testBit 2),
        Event.setLevel pin.gpio_port_d7 pin.gpio_num_d7 (B.testBit 3),
        Event.setLevel pin.gpio_port_en pin.gpio_num_en true,
        Event.delay (1 / env.portTICK_PERIOD_MS),
        Event.setLevel pin.gpio_port_en pin.gpio_num_en false,
        Event.delay (1 / env.portTICK_PERIOD_MS) ] ∧
    (_write_data_4bit env pin B s).1 = STM_OK ∧
    (_write_data_4bit env pin B s).2.trace = s.trace ++
      [ Event.setLevel pin.gpio_port_rs pin.gpio_num_rs true,
        Event.setLevel pin.gpio_port_rw pin.gpio_num_rw false,
        Event.setLevel pin.gpio_port_d4 pin.gpio_num_d4 (B.testBit 4),
        Event.setLevel pin.gpio_port_d5 pin.gpio_num_d5 (B.testBit 5),
        Event.setLevel pin.gpio_port_d6 pin.gpio_num_d6 (B.testBit 6),
        Event.setLevel pin.gpio_port_d7 pin.gpio_num_d7 (B.testBit 7),
        Event.setLevel pin.gpio_port_en pin.gpio_num_en true,
        Event.delay (1 / env.portTICK_PERIOD_MS),
        Event.setLevel pin.gpio_port_en pin.gpio_num_en false,
        Event.delay (1 / env.portTICK_PERIOD_MS),
        Event.setLevel pin.gpio_port_d4 pin.gpio_num_d4 (B.testBit 0),
        Event.setLevel pin.gpio_port_d5 pin.gpio_num_d5 (B.testBit 1),
        Event.setLevel pin.gpio_port_d6 pin.gpio_num_d6 (B.testBit 2),
        Event.setLevel pin.gpio_port_d7 pin.gpio_num_d7 (B.testBit 3),
        Event.setLevel pin.gpio_port_en pin.gpio_num_en true,
        Event.delay (1 / env.portTICK_PERIOD_MS),
        Event.setLevel pin.gpio_port_en pin.gpio_num_en false,
        Event.delay (1 / env.portTICK_PERIOD_MS) ] ∧
    B = 16 * ((B.testBit 4).toNat + 2 * (B.testBit 5).toNat + 4 * (B.testBit 6).toNat
                + 8 * (B.testBit 7).toNat)
          + ((B.testBit 0).toNat + 2 * (B.testBit 1).toNat + 4 * (B.testBit 2).toNat
                + 8 * (B.testBit 3).toNat) := by
  have hc := attempt_of_succeeds env s (byteTransfer env.portTICK_PERIOD_MS pin false B)
    (by rw [gpioCount_byteTransfer]; exact hgpio)
  have hd := attempt_of_succeeds env s (byteTransfer env.portTICK_PERIOD_MS pin true B)
    (by rw [gpioCount_byteTransfer]; exact hgpio)
  rw [write_cmd_4bit_eq, write_data_4bit_eq]
  refine ⟨hc.1, ?_, hd.1, ?_, ?_⟩
  · simp only [hc.2]; rfl
  · simp only [hd.2]; rfl
  · have key : ∀ b, b < 256 →
        b = 16 * ((b.testBit 4).toNat + 2 * (b.testBit 5).toNat + 4 * (b.testBit 6).toNat
                + 8 * (b.testBit 7).toNat)
          + ((b.testBit 0).toNat + 2 * (b.testBit 1).toNat + 4 * (b.testBit 2).toNat
                + 8 * (b.testBit 3).toNat) := by
      set_option maxRecDepth 100000 in decide
    exact key B hB

/-- Witness for C1: the function-set command 0x28 on the example pin map. -/
theorem write_4bit_sends_high_nibble_then_low_nibble_witness :
    (0x28 < 256 ∧ ∀ i, i < 14 → (envOk 1).gpio (st0.gpioCalls + i) = STM_OK) ∧
    (_write_cmd_4bit (envOk 1) examplePin 0x28 st0).1 = STM_OK ∧
    (_write_cmd_4bit (envOk 1) examplePin 0x28 st0).2.trace =
      [ Event.setLevel 0 0 false, Event.setLevel 0 2 false,
        Event.setLevel 0 1 false, Event.setLevel 0 3 true,
        Event.setLevel 0 5 false, Event.setLevel 0 7 false,
        Event.setLevel 0 4 true, Event.delay 1, Event.setLevel 0 4 false, Event.delay 1,
        Event.setLevel 0 1 false, Event.setLevel 0 3 false,
        Event.setLevel 0 5 false, Event.setLevel 0 7 true,
        Event.setLevel 0 4 true, Event.delay 1, Event.setLevel 0 4 false, Event.delay 1 ] :=
  have h := write_4bit_sends_high_nibble_then_low_nibble (envOk 1) examplePin 0x28 st0
    (by decide) (fun _ _ => rfl)
  ⟨⟨by decide, fun _ _ => rfl⟩, h.1, h.2.1.trans (by decide)⟩

/-- C9: if the first `n - 1` GPIO calls of a byte transfer succeed and the
`n`-th fails (`1 ≤ n ≤ 14`), then `_write_cmd_4bit` and `_write_data_4bit`
return `STM_FAIL`, have made exactly `n` GPIO calls, and have performed exactly
the prefix of the all-success sequence that ends with its `n`-th GPIO call
(so nothing, neither GPIO call nor delay, follows the failing call); and each
returns `STM_OK` exactly when all fourteen calls succeed. -/
theorem write_4bit_stops_at_first_failing_gpio_call (env : Env) (pin : lcd_hd44780_pin_t)
    (B : Nat) (s : St) :
    (∀ n, 1 ≤ n → n ≤ 14 →
      (∀ i, i < n - 1 → env.gpio (s.gpioCalls + i) = STM_OK) →
      env.gpio (s.gpioCalls + (n - 1)) ≠ STM_OK →
      ((_write_cmd_4bit env pin B s).1 = STM_FAIL ∧
       (_write_cmd_4bit env pin B s).2.trace =
          s.trace ++ uptoGpio n (byteTransfer env.portTICK_PERIOD_MS pin false B) ∧
       (_write_cmd_4bit env pin B s).2.gpioCalls = s.gpioCalls + n ∧
       (_write_data_4bit env pin B s).1 = STM_FAIL ∧
       (_write_data_4bit env pin B s).2.trace =
          s.trace ++ uptoGpio n (byteTransfer env.portTICK_PERIOD_MS pin true B) ∧
       (_write_data_4bit env pin B s).2.gpioCalls = s.gpioCalls + n) ∧
      (∀ rs : Bool,
        uptoGpio n (byteTransfer env.portTICK_PERIOD_MS pin rs B)
          <+: byteTransfer env.portTICK_PERIOD_MS pin rs B ∧
        (uptoGpio n (byteTransfer env.portTICK_PERIOD_MS pin rs B)).filter Event.isGpio =
          ((byteTransfer env.portTICK_PERIOD_MS pin rs B).filter Event.isGpio).take n ∧
        ∃ e, (uptoGpio n (byteTransfer env.portTICK_PERIOD_MS pin rs B)).getLast? = some e ∧
          e.isGpio = true)) ∧
    ((_write_cmd_4bit env pin B s).1 = STM_OK ↔
      ∀ i, i < 14 → env.gpio (s.gpioCalls + i) = STM_OK) ∧
    ((_write_data_4bit env pin B s).1 = STM_OK ↔
      ∀ i, i < 14 → env.gpio (s.gpioCalls + i) = STM_OK) := by
  have hiff : ∀ rs : Bool,
      (resultOf env s (byteTransfer env.portTICK_PERIOD_MS pin rs B) = STM_OK ↔
        ∀ i, i < 14 → env.gpio (s.gpioCalls + i) = STM_OK) := by
    intro rs
    have h := succeeds_iff env (byteTransfer env.portTICK_PERIOD_MS pin rs B) s.gpioCalls
    rw [gpioCount_byteTransfer] at h
    unfold resultOf
    by_cases hs : succeeds env s.gpioCalls (byteTransfer env.portTICK_PERIOD_MS pin rs B) = true
    · simp only [hs, if_true, true_iff]
      exact h.1 hs
    · simp only [hs]
      constructor
      · intro hc; exact absurd hc (by decide)
      · intro hc; exact absurd (h.2 hc) hs
  rw [write_cmd_4bit_eq, write_data_4bit_eq]
  refine ⟨?_, hiff false, hiff true⟩
  intro n h1 h14 hok hbad
  obtain ⟨k, rfl⟩ : ∃ k, n = k + 1 := ⟨n - 1, by omega⟩
  simp only [Nat.add_sub_cancel] at hok hbad
  have hc := attempt_of_first_failure env s (byteTransfer env.portTICK_PERIOD_MS pin false B) k
    hok hbad (by rw [gpioCount_byteTransfer]; omega)
  have hd := attempt_of_first_failure env s (byteTransfer env.portTICK_PERIOD_MS pin true B) k
    hok hbad (by rw [gpioCount_byteTransfer]; omega)
  refine ⟨⟨hc.1, ?_, ?_, hd.1, ?_, ?_⟩, ?_⟩
  · simp only [hc.2]
  · simp only [hc.2]
  · simp only [hd.2]
  · simp only [hd.2]
  · intro rs
    exact ⟨uptoGpio_initial_segment _ _, uptoGpio_filter _ _,
      uptoGpio_last _ _ (by omega) (by rw [gpioCount_byteTransfer]; omega)⟩

/-- Witness for C9: the eighth GPIO call (enable low after the first nibble)
fails while 0x41 is written to the data register. -/
theorem write_4bit_stops_at_first_failing_gpio_call_witness :
    (1 ≤ 8 ∧ 8 ≤ 14 ∧
      (∀ i, i < 8 - 1 → (envFailAt 1 7).gpio (st0.gpioCalls + i) = STM_OK) ∧
      (envFailAt 1 7).gpio (st0.gpioCalls + (8 - 1)) ≠ STM_OK) ∧
    (_write_data_4bit (envFailAt 1 7) examplePin 0x41 st0).1 = STM_FAIL ∧
    (_write_data_4bit (envFailAt 1 7) examplePin 0x41 st0).2.trace =
      [ Event.setLevel 0 0 true, Event.setLevel 0 2 false,
        Event.setLevel 0 1 false, Event.setLevel 0 3 false,
        Event.setLevel 0 5 true, Event.setLevel 0 7 false,
        Event.setLevel 0 4 true, Event.delay 1, Event.setLevel 0 4 false ] :=
  have hyp : (∀ i, i < 8 - 1 → (envFailAt 1 7).gpio (st0.gpioCalls + i) = STM_OK) ∧
      (envFailAt 1 7).gpio (st0.gpioCalls + (8 - 1)) ≠ STM_OK := by
    refine ⟨fun i hi => ?_, by decide⟩
    have : st0.gpioCalls + i ≠ 7 := by simp only [st0]; omega
    simp [envFailAt, this]
  have h := (write_4bit_stops_at_first_failing_gpio_call (envFailAt 1 7) examplePin 0x41 st0).1
    8 (by decide) (by decide) hyp.1 hyp.2
  ⟨⟨by decide, by decide, hyp⟩, h.1.2.2.2.1, h.1.2.2.2.2.1.trans (by decide)⟩

/-! ## Initialisation -/

theorem init_mode_4bit_eq (env : Env) (pin : lcd_hd44780_pin_t) (s : St) :
    _init_mode_4bit env pin s = (resultOf env s (pinSetup pin), s.attempt env (pinSetup pin)) := by
  simp only [_init_mode_4bit, LCD_CHECK_gpio_set_level, LCD_CHECK_gpio_config,
    pinSetup, attempt_cons_setLevel, attempt_cons_gpioConfig, attempt_nil]

theorem gpioCount_pinSetup (pin : lcd_hd44780_pin_t) : gpioCount (pinSetup pin) = 14 := rfl

theorem gpioCount_commandStep (p : Nat) (pin : lcd_hd44780_pin_t) (B : Nat) :
    gpioCount (commandStep p pin B) = 14 := rfl

theorem LCD_CHECK_attempt {α : Type} (env : Env) (f : St → Int × St) (es : List Event)
    (hf : ∀ s, f s = (resultOf env s es, s.attempt env es))
    (s : St) (action rest : St → α) :
    LCD_CHECK s (cnot f) action rest =
      if succeeds env s.gpioCalls es then rest (s.attempt env es)
      else action (s.attempt env es) := by
  simp only [LCD_CHECK, cnot, hf, resultOf]
  by_cases h : succeeds env s.gpioCalls es = true
  · simp [h, STM_OK]
  · simp [h, STM_FAIL]

theorem succeeds_append (env : Env) (a b : List Event) :
    ∀ c, succeeds env c (a ++ b) =
      (succeeds env c a && succeeds env (c + gpioCount a) b) := by
  induction a with
  | nil => intro c; simp [succeeds, gpioCount]
  | cons e a ih =>
    intro c
    rw [List.cons_append]
    by_cases hg : e.isGpio = true
    · by_cases h0 : env.gpio c = 0
      · simp only [succeeds, hg, h0, if_true, gpioCount_cons]
        rw [ih]
        have e1 : c + 1 + gpioCount a = c + (1 + gpioCount a) := by omega
        rw [e1]
      · simp [succeeds, hg, h0]
    · have hg2 : e.isGpio = false := by simpa using hg
      simp only [succeeds, hg2, gpioCount_cons, Bool.false_eq_true, if_false, Nat.zero_add]
      exact ih c

theorem performed_append (env : Env) (a b : List Event) :
    ∀ c, performed env c (a ++ b) =
      if succeeds env c a then a ++ performed env (c + gpioCount a) b
      else performed env c a := by
  induction a with
  | nil => intro c; simp [succeeds, performed, gpioCount]
  | cons e a ih =>
    intro c
    rw [List.cons_append]
    by_cases hg : e.isGpio = true
    · by_cases h0 : env.gpio c = 0
      · simp only [succeeds, performed, hg, h0, if_true, gpioCount_cons]
        rw [ih]
        have e1 : c + 1 + gpioCount a = c + (1 + gpioCount a) := by omega
        rw [e1]
        by_cases h : succeeds env (c + 1) a = true <;> simp [h]
      · simp [succeeds, performed, hg, h0]
    · have hg2 : e.isGpio = false := by simpa using hg
      simp only [succeeds, performed, hg2, gpioCount_cons, Bool.false_eq_true, if_false,
        Nat.zero_add]
      rw [ih]
      by_cases h : succeeds env c a = true <;> simp [h]

theorem attempt_gpioCalls_of_succeeds (env : Env) (s : St) (es : List Event)
    (h : succeeds env s.gpioCalls es = true) :
    (s.attempt env es).gpioCalls = s.gpioCalls + gpioCount es := by
  simp [St.attempt, performed_of_succeeds env es _ h]

theorem attempt_append (env : Env) (s : St) (a b : List Event) :
    s.attempt env (a ++ b) =
      if succeeds env s.gpioCalls a then (s.attempt env a).attempt env b
      else s.attempt env a := by
  by_cases h : succeeds env s.gpioCalls a = true
  · simp only [h, if_true]
    simp only [St.attempt, performed_append, h, if_true, performed_of_succeeds env a _ h,
      gpioCount_append, List.append_assoc, Nat.add_assoc]
  · simp only [h]
    simp [St.attempt, performed_append, h]

theorem LCD_CHECK_step {α : Type} (env : Env) (f : St → Int × St) (es tail : List Event)
    (hf : ∀ s, f s = (resultOf env s es, s.attempt env es))
    (X Y rest : St → α)
    (hk : ∀ s, rest s =
      if succeeds env s.gpioCalls tail then X (s.attempt env tail) else Y (s.attempt env tail))
    (s : St) :
    LCD_CHECK s (cnot f) Y rest =
      if succeeds env s.gpioCalls (es ++ tail) then X (s.attempt env (es ++ tail))
      else Y (s.attempt env (es ++ tail)) := by
  rw [LCD_CHECK_attempt env f es hf, succeeds_append, attempt_append]
  by_cases h : succeeds env s.gpioCalls es = true
  · simp only [h, if_true, Bool.true_and, hk, attempt_gpioCalls_of_succeeds env s es h]
  · simp only [h]
    simp

theorem succeeds_cons_delay (env : Env) (c t : Nat) (es : List Event) :
    succeeds env c (Event.delay t :: es) = succeeds env c es := by
  simp [succeeds, Event.isGpio]

theorem attempt_cons_delay_state (env : Env) (s : St) (t : Nat) (es : List Event) :
    s.attempt env (Event.delay t :: es) = (vTaskDelay t s).attempt env es := by
  simp [St.attempt, performed, gpioCount, Event.isGpio, vTaskDelay]

theorem init_4bit_eq (env : Env) (config : lcd_hd44780_cfg_t) (s : St)
    (hmode : config.mode = lcd_hd44780_comm_mode_t.LCD_HD44780_COMM_MODE_4BIT)
    (hcalloc : env.callocOk = true) :
    lcd_hd44780_init env config s =
      if succeeds env s.gpioCalls (initSequence env.portTICK_PERIOD_MS config.pin) then
        Except.ok (some (handleOf env config),
          (((s.note (Event.calloc true)).attempt env
            (initSequence env.portTICK_PERIOD_MS config.pin)).note
              (Event.mutexCreate env.newMutex)))
      else
        Except.ok (none,
          (((s.note (Event.calloc true)).attempt env
            (initSequence env.portTICK_PERIOD_MS config.pin)).note Event.free)) := by
  have hseq : initSequence env.portTICK_PERIOD_MS config.pin =
      pinSetup config.pin ++
      (byteTransfer env.portTICK_PERIOD_MS config.pin false 0x02 ++
        (Event.delay (LCD_TICK_DELAY_DEFAULT / env.portTICK_PERIOD_MS) ::
      (byteTransfer env.portTICK_PERIOD_MS config.pin false 0x28 ++
        (Event.delay (LCD_TICK_DELAY_DEFAULT / env.portTICK_PERIOD_MS) ::
      (byteTransfer env.portTICK_PERIOD_MS config.pin false 0x06 ++
        (Event.delay (LCD_TICK_DELAY_DEFAULT / env.portTICK_PERIOD_MS) ::
      (byteTransfer env.portTICK_PERIOD_MS config.pin false 0x0C ++
        (Event.delay (LCD_TICK_DELAY_DEFAULT / env.portTICK_PERIOD_MS) ::
      (byteTransfer env.portTICK_PERIOD_MS config.pin false 0x01 ++
        (Event.delay (LCD_TICK_DELAY_DEFAULT / env.portTICK_PERIOD_MS) :: [])))))))))) := rfl
  rw [hseq]
  simp only [lcd_hd44780_init, hmode, hcalloc, deref, Bool.not_true, Bool.false_eq_true, if_false]
  refine (LCD_CHECK_step env _ _
      (byteTransfer env.portTICK_PERIOD_MS config.pin false 0x02 ++
        (Event.delay (LCD_TICK_DELAY_DEFAULT / env.portTICK_PERIOD_MS) :: (byteTransfer env.portTICK_PERIOD_MS config.pin false 0x28 ++
        (Event.delay (LCD_TICK_DELAY_DEFAULT / env.portTICK_PERIOD_MS) :: (byteTransfer env.portTICK_PERIOD_MS config.pin false 0x06 ++
        (Event.delay (LCD_TICK_DELAY_DEFAULT / env.portTICK_PERIOD_MS) :: (byteTransfer env.portTICK_PERIOD_MS config.pin false 0x0C ++
        (Event.delay (LCD_TICK_DELAY_DEFAULT / env.portTICK_PERIOD_MS) :: (byteTransfer env.portTICK_PERIOD_MS config.pin false 0x01 ++
        (Event.delay (LCD_TICK_DELAY_DEFAULT / env.portTICK_PERIOD_MS) :: []))))))))))
      (init_mode_4bit_eq env config.pin)
      (fun s => Except.ok (some (handleOf env config), s.note (Event.mutexCreate env.newMutex)))
      _ _ (fun s1 => ?_) _).trans ?_
  · refine (LCD_CHECK_step env _ _
      (Event.delay (LCD_TICK_DELAY_DEFAULT / env.portTICK_PERIOD_MS) :: (byteTransfer env.portTICK_PERIOD_MS config.pin false 0x28 ++
        (Event.delay (LCD_TICK_DELAY_DEFAULT / env.portTICK_PERIOD_MS) :: (byteTransfer env.portTICK_PERIOD_MS config.pin false 0x06 ++
        (Event.delay (LCD_TICK_DELAY_DEFAULT / env.portTICK_PERIOD_MS) :: (byteTransfer env.portTICK_PERIOD_MS config.pin false 0x0C ++
        (Event.delay (LCD_TICK_DELAY_DEFAULT / env.portTICK_PERIOD_MS) :: (byteTransfer env.portTICK_PERIOD_MS config.pin false 0x01 ++
        (Event.delay (LCD_TICK_DELAY_DEFAULT / env.portTICK_PERIOD_MS) :: [])))))))))
      (write_cmd_4bit_eq env config.pin 0x02)
      (fun s => Except.ok (some (handleOf env config), s.note (Event.mutexCreate env.newMutex)))
      _ _ (fun s2 => ?_) _)
    rw [succeeds_cons_delay, attempt_cons_delay_state]
    refine (LCD_CHECK_step env _ _
      (Event.delay (LCD_TICK_DELAY_DEFAULT / env.portTICK_PERIOD_MS) :: (byteTransfer env.portTICK_PERIOD_MS config.pin false 0x06 ++
        (Event.delay (LCD_TICK_DELAY_DEFAULT / env.portTICK_PERIOD_MS) :: (byteTransfer env.portTICK_PERIOD_MS config.pin false 0x0C ++
        (Event.delay (LCD_TICK_DELAY_DEFAULT / env.portTICK_PERIOD_MS) :: (byteTransfer env.portTICK_PERIOD_MS config.pin false 0x01 ++
        (Event.delay (LCD_TICK_DELAY_DEFAULT / env.portTICK_PERIOD_MS) :: [])))))))
      (write_cmd_4bit_eq env config.pin 0x28)
      (fun s => Except.ok (some (handleOf env config), s.note (Event.mutexCreate env.newMutex)))
      _ _ (fun s3 => ?_) _)
    rw [succeeds_cons_delay, attempt_cons_delay_state]
    refine (LCD_CHECK_step env _ _
      (Event.delay (LCD_TICK_DELAY_DEFAULT / env.portTICK_PERIOD_MS) :: (byteTransfer env.portTICK_PERIOD_MS config.pin false 0x0C ++
        (Event.delay (LCD_TICK_DELAY_DEFAULT / env.portTICK_PERIOD_MS) :: (byteTransfer env.portTICK_PERIOD_MS config.pin false 0x01 ++
        (Event.delay (LCD_TICK_DELAY_DEFAULT / env.portTICK_PERIOD_MS) :: [])))))
      (write_cmd_4bit_eq env config.pin 0x06)
      (fun s => Except.ok (some (handleOf env config), s.note (Event.mutexCreate env.newMutex)))
      _ _ (fun s4 => ?_) _)
    rw [succeeds_cons_delay, attempt_cons_delay_state]
    refine (LCD_CHECK_step env _ _
      (Event.delay (LCD_TICK_DELAY_DEFAULT / env.portTICK_PERIOD_MS) :: (byteTransfer env.portTICK_PERIOD_MS config.pin false 0x01 ++
        (Event.delay (LCD_TICK_DELAY_DEFAULT / env.portTICK_PERIOD_MS) :: [])))
      (write_cmd_4bit_eq env config.pin 0x0C)
      (fun s => Except.ok (some (handleOf env config), s.note (Event.mutexCreate env.newMutex)))
      _ _ (fun s5 => ?_) _)
    rw [succeeds_cons_delay, attempt_cons_delay_state]
    refine (LCD_CHECK_step env _ _
      (Event.delay (LCD_TICK_DELAY_DEFAULT / env.portTICK_PERIOD_MS) :: [])
      (write_cmd_4bit_eq env config.pin 0x01)
      (fun s => Except.ok (some (handleOf env config), s.note (Event.mutexCreate env.newMutex)))
      _ _ (fun s6 => ?_) _)
    rw [succeeds_cons_delay, attempt_cons_delay_state]
    simp [succeeds, St.attempt, performed, gpioCount, St.note, handleOf, hmode]
  · simp only [St.note, cleanup_return_NULL, _lcd_hd44780_cleanup]

theorem gpioCount_initSequence (p : Nat) (pin : lcd_hd44780_pin_t) :
    gpioCount (initSequence p pin) = 84 := rfl

theorem uptoGpio_append_left (a b : List Event) :
    ∀ n, n ≤ gpioCount a → uptoGpio n (a ++ b) = uptoGpio n a := by
  induction a with
  | nil => intro n hn; simp [gpioCount] at hn; subst hn; simp [uptoGpio]
  | cons e a ih =>
    intro n hn
    rw [List.cons_append]
    cases n with
    | zero => simp [uptoGpio]
    | succ n =>
      rw [gpioCount_cons] at hn
      by_cases hg : e.isGpio = true
      · simp only [hg, if_true] at hn
        simp only [uptoGpio, hg, if_true]
        rw [ih n (by omega)]
      · have hg2 : e.isGpio = false := by simpa using hg
        simp only [hg2, Bool.false_eq_true, if_false, Nat.zero_add] at hn
        simp only [uptoGpio, hg2, Bool.false_eq_true, if_false]
        rw [ih (n + 1) hn]

theorem uptoGpio_append_right (a b : List Event) :
    ∀ m, 0 < m → uptoGpio (gpioCount a + m) (a ++ b) = a ++ uptoGpio m b := by
  induction a with
  | nil => intro m _; simp [gpioCount]
  | cons e a ih =>
    intro m hm
    rw [List.cons_append, gpioCount_cons]
    obtain ⟨j, rfl⟩ : ∃ j, m = j + 1 := ⟨m - 1, by omega⟩
    by_cases hg : e.isGpio = true
    · have e1 : (if e.isGpio = true then 1 else 0) + gpioCount a + (j + 1)
          = (gpioCount a + (j + 1)) + 1 := by simp only [hg, if_true]; omega
      rw [e1]
      simp only [uptoGpio, hg, if_true]
      rw [ih (j + 1) hm]
      rfl
    · have hg2 : e.isGpio = false := by simpa using hg
      have e1 : (if e.isGpio = true then 1 else 0) + gpioCount a + (j + 1)
          = (gpioCount a + j) + 1 := by simp only [hg2, Bool.false_eq_true, if_false]; omega
      rw [e1]
      simp only [uptoGpio, hg2, Bool.false_eq_true, if_false]
      have e2 : gpioCount a + j + 1 = gpioCount a + (j + 1) := by omega
      rw [e2, ih (j + 1) hm]
      rfl

theorem init_4bit_success (env : Env) (config : lcd_hd44780_cfg_t) (s : St)
    (hmode : config.mode = lcd_hd44780_comm_mode_t.LCD_HD44780_COMM_MODE_4BIT)
    (hcalloc : env.callocOk = true)
    (hgpio : ∀ i, i < 84 → env.gpio (s.gpioCalls + i) = 0) :
    lcd_hd44780_init env config s =
      Except.ok (some (handleOf env config),
        { trace := s.trace ++ [Event.calloc true]
            ++ initSequence env.portTICK_PERIOD_MS config.pin
            ++ [Event.mutexCreate env.newMutex],
          gpioCalls := s.gpioCalls + 84, takes := s.takes }) := by
  have hs := (succeeds_iff env (initSequence env.portTICK_PERIOD_MS config.pin) s.gpioCalls).2
    (by rw [gpioCount_initSequence]; exact hgpio)
  rw [init_4bit_eq env config s hmode hcalloc]
  simp only [hs, if_true, St.note, St.attempt,
    performed_of_succeeds env _ _ hs, gpioCount_initSequence]

theorem init_4bit_first_failure (env : Env) (config : lcd_hd44780_cfg_t) (s : St)
    (hmode : config.mode = lcd_hd44780_comm_mode_t.LCD_HD44780_COMM_MODE_4BIT)
    (hcalloc : env.callocOk = true) (f : Nat)
    (hok : ∀ i, i < f → env.gpio (s.gpioCalls + i) = 0)
    (hbad : env.gpio (s.gpioCalls + f) ≠ 0) (hf : f < 84) :
    lcd_hd44780_init env config s =
      Except.ok (none,
        { trace := s.trace ++ [Event.calloc true]
            ++ uptoGpio (f + 1) (initSequence env.portTICK_PERIOD_MS config.pin)
            ++ [Event.free],
          gpioCalls := s.gpioCalls + (f + 1), takes := s.takes }) := by
  have h := attempt_of_first_failure env (s.note (Event.calloc true))
    (initSequence env.portTICK_PERIOD_MS config.pin) f hok hbad
    (by rw [gpioCount_initSequence]; exact hf)
  have hs := (performed_first_failure env (initSequence env.portTICK_PERIOD_MS config.pin)
    s.gpioCalls f hok hbad (by rw [gpioCount_initSequence]; exact hf)).2
  rw [init_4bit_eq env config s hmode hcalloc]
  simp only [hs, Bool.false_eq_true, if_false, h.2]
  simp only [St.note]

theorem init_4bit_failure_within (env : Env) (config : lcd_hd44780_cfg_t) (s : St)
    (hmode : config.mode = lcd_hd44780_comm_mode_t.LCD_HD44780_COMM_MODE_4BIT)
    (hcalloc : env.callocOk = true) (A T rest : List Event)
    (hI : initSequence env.portTICK_PERIOD_MS config.pin = A ++ (T ++ rest))
    (n : Nat) (hn : n < gpioCount T)
    (hok : ∀ i, i < gpioCount A + n → env.gpio (s.gpioCalls + i) = 0)
    (hbad : env.gpio (s.gpioCalls + (gpioCount A + n)) ≠ 0) :
    lcd_hd44780_init env config s =
      Except.ok (none,
        { trace := s.trace ++ [Event.calloc true] ++ A ++ uptoGpio (n + 1) T ++ [Event.free],
          gpioCalls := s.gpioCalls + (gpioCount A + n + 1), takes := s.takes }) := by
  have h84 : gpioCount A + gpioCount T + gpioCount rest = 84 := by
    have := gpioCount_initSequence env.portTICK_PERIOD_MS config.pin
    rw [hI, gpioCount_append, gpioCount_append] at this
    omega
  rw [init_4bit_first_failure env config s hmode hcalloc (gpioCount A + n) hok hbad (by omega),
    hI]
  have e1 : gpioCount A + n + 1 = gpioCount A + (n + 1) := by omega
  rw [e1, uptoGpio_append_right A (T ++ rest) (n + 1) (by omega),
    uptoGpio_append_left T rest (n + 1) (by omega)]
  simp only [List.append_assoc]

/-- C2: for a 4-bit configuration, when the allocation and all 84 GPIO calls
succeed, `lcd_hd44780_init` allocates, configures the pins, transfers the
command bytes 0x02, 0x28, 0x06, 0x0C, 0x01 to the command register in this
order, each followed by one delay of `LCD_TICK_DELAY_DEFAULT /
portTICK_PERIOD_MS` ticks (50 ms when the tick period is 1 ms), makes no
other transfer, creates the lock, and returns a handle whose size, mode and
pin map are those of the configuration. -/
theorem init_4bit_sends_the_five_commands (env : Env) (config : lcd_hd44780_cfg_t) (s : St)
    (hmode : config.mode = lcd_hd44780_comm_mode_t.LCD_HD44780_COMM_MODE_4BIT)
    (hcalloc : env.callocOk = true)
    (hgpio : ∀ i, i < 84 → env.gpio (s.gpioCalls + i) = STM_OK) :
    ∃ handle s', lcd_hd44780_init env config s = Except.ok (some handle, s') ∧
      s'.trace = s.trace ++ [Event.calloc true] ++ pinSetup config.pin
        ++ byteTransfer env.portTICK_PERIOD_MS config.pin false 0x02
        ++ [Event.delay (LCD_TICK_DELAY_DEFAULT / env.portTICK_PERIOD_MS)]
        ++ byteTransfer env.portTICK_PERIOD_MS config.pin false 0x28
        ++ [Event.delay (LCD_TICK_DELAY_DEFAULT / env.portTICK_PERIOD_MS)]
        ++ byteTransfer env.portTICK_PERIOD_MS config.pin false 0x06
        ++ [Event.delay (LCD_TICK_DELAY_DEFAULT / env.portTICK_PERIOD_MS)]
        ++ byteTransfer env.portTICK_PERIOD_MS config.pin false 0x0C
        ++ [Event.delay (LCD_TICK_DELAY_DEFAULT / env.portTICK_PERIOD_MS)]
        ++ byteTransfer env.portTICK_PERIOD_MS config.pin false 0x01
        ++ [Event.delay (LCD_TICK_DELAY_DEFAULT / env.portTICK_PERIOD_MS)]
        ++ [Event.mutexCreate env.newMutex] ∧
      handle.size = config.size ∧ handle.mode = config.mode ∧ handle.pin = config.pin ∧
      (env.portTICK_PERIOD_MS = 1 →
        LCD_TICK_DELAY_DEFAULT / env.portTICK_PERIOD_MS * env.portTICK_PERIOD_MS = 50) := by
  refine ⟨handleOf env config, _, init_4bit_success env config s hmode hcalloc hgpio,
    ?_, rfl, rfl, rfl, ?_⟩
  · simp only [initSequence, initCommands, List.flatMap_cons, List.flatMap_nil, commandStep,
      List.append_assoc, List.append_nil]
  · intro hp
    rw [hp]
    rfl

/-- Witness for C2: the configuration of the example application (geometry
with raw value 0, 4-bit mode, example pin map) at a 1 ms tick. -/
theorem init_4bit_sends_the_five_commands_witness :
    (envOk 1).callocOk = true ∧
    (∀ i, i < 84 → (envOk 1).gpio (st0.gpioCalls + i) = STM_OK) ∧
    ∃ handle s',
      lcd_hd44780_init (envOk 1)
        ⟨0, lcd_hd44780_comm_mode_t.LCD_HD44780_COMM_MODE_4BIT, examplePin⟩ st0
        = Except.ok (some handle, s') ∧
      s'.trace.filter (fun e => e = Event.delay 50) = List.replicate 5 (Event.delay 50) ∧
      s'.trace.length = 1 + 14 + 5 * 19 + 1 ∧
      handle.pin = examplePin :=
  have h := init_4bit_sends_the_five_commands (envOk 1)
    ⟨0, lcd_hd44780_comm_mode_t.LCD_HD44780_COMM_MODE_4BIT, examplePin⟩ st0 rfl rfl
    (fun _ _ => rfl)
  ⟨rfl, fun _ _ => rfl,
    match h with
    | ⟨handle, s', h1, h2, _, _, h5, _⟩ =>
      ⟨handle, s', h1, by rw [h2]; decide, by rw [h2]; rfl, h5⟩⟩

/-- C3: for a 4-bit configuration whose allocation succeeded: if the pin
configuration and the first `k - 1` initialisation commands succeed and the
`k`-th command fails at its GPIO call number `n + 1` (`1 ≤ k ≤ 5`, `n < 14`),
then `lcd_hd44780_init` returns `NULL` after exactly the pin configuration, the
first `k - 1` command steps, the part of the `k`-th command transfer up to its
failing call, and the release of the storage, so that no later command is
sent; and if the pin configuration fails at its GPIO call number `n + 1`, it
returns `NULL` after the part of the pin configuration up to the failing
call and the release of the storage, so that no command is sent. -/
theorem init_4bit_aborts_at_first_failing_command (env : Env) (config : lcd_hd44780_cfg_t)
    (s : St)
    (hmode : config.mode = lcd_hd44780_comm_mode_t.LCD_HD44780_COMM_MODE_4BIT)
    (hcalloc : env.callocOk = true) :
    (∀ k n, 1 ≤ k → k ≤ 5 → n < 14 →
      (∀ i, i < 14 + 14 * (k - 1) + n → env.gpio (s.gpioCalls + i) = STM_OK) →
      env.gpio (s.gpioCalls + (14 + 14 * (k - 1) + n)) ≠ STM_OK →
      ∃ s', lcd_hd44780_init env config s = Except.ok (none, s') ∧
        s'.trace = s.trace ++ [Event.calloc true] ++ pinSetup config.pin
          ++ (initCommands.take (k - 1)).flatMap (commandStep env.portTICK_PERIOD_MS config.pin)
          ++ uptoGpio (n + 1)
              (byteTransfer env.portTICK_PERIOD_MS config.pin false (initCommands.getD (k - 1) 0))
          ++ [Event.free]) ∧
    (∀ n, n < 14 →
      (∀ i, i < n → env.gpio (s.gpioCalls + i) = STM_OK) →
      env.gpio (s.gpioCalls + n) ≠ STM_OK →
      ∃ s', lcd_hd44780_init env config s = Except.ok (none, s') ∧
        s'.trace = s.trace ++ [Event.calloc true] ++ uptoGpio (n + 1) (pinSetup config.pin)
          ++ [Event.free]) := by
  constructor
  · intro k n hk1 hk5 hn hok hbad
    have key : ∀ (pre : List Nat) (c : Nat) (post : List Nat),
        initCommands = pre ++ c :: post → 14 * (k - 1) = 14 * pre.length →
        ∃ s', lcd_hd44780_init env config s = Except.ok (none, s') ∧
          s'.trace = s.trace ++ [Event.calloc true] ++ pinSetup config.pin
            ++ pre.flatMap (commandStep env.portTICK_PERIOD_MS config.pin)
            ++ uptoGpio (n + 1) (byteTransfer env.portTICK_PERIOD_MS config.pin false c)
            ++ [Event.free] := by
      intro pre c post hsplit hlen
      have hcount : ∀ l : List Nat,
          gpioCount (l.flatMap (commandStep env.portTICK_PERIOD_MS config.pin))
            = 14 * l.length := by
        intro l
        induction l with
        | nil => rfl
        | cons a l ih =>
          rw [List.flatMap_cons, gpioCount_append, ih, gpioCount_commandStep, List.length_cons]
          omega
      have hA : gpioCount (pinSetup config.pin
          ++ pre.flatMap (commandStep env.portTICK_PERIOD_MS config.pin))
            = 14 + 14 * (k - 1) := by
        rw [gpioCount_append, gpioCount_pinSetup, hcount, hlen]
      have hI : initSequence env.portTICK_PERIOD_MS config.pin =
          (pinSetup config.pin ++ pre.flatMap (commandStep env.portTICK_PERIOD_MS config.pin))
          ++ (byteTransfer env.portTICK_PERIOD_MS config.pin false c
              ++ ([Event.delay (LCD_TICK_DELAY_DEFAULT / env.portTICK_PERIOD_MS)]
                  ++ post.flatMap (commandStep env.portTICK_PERIOD_MS config.pin))) := by
        simp only [initSequence, hsplit, List.flatMap_append, List.flatMap_cons, commandStep,
          List.append_assoc]
      refine ⟨_, init_4bit_failure_within env config s hmode hcalloc _ _ _ hI n
        (by rw [gpioCount_byteTransfer]; exact hn)
        (by rw [hA]; exact hok) (by rw [hA]; exact hbad), ?_⟩
      simp only [List.append_assoc]
    have hcases : k = 1 ∨ k = 2 ∨ k = 3 ∨ k = 4 ∨ k = 5 := by omega
    rcases hcases with rfl | rfl | rfl | rfl | rfl
    · exact key [] 0x02 [0x28, 0x06, 0x0C, 0x01] rfl rfl
    · exact key [0x02] 0x28 [0x06, 0x0C, 0x01] rfl rfl
    · exact key [0x02, 0x28] 0x06 [0x0C, 0x01] rfl rfl
    · exact key [0x02, 0x28, 0x06] 0x0C [0x01] rfl rfl
    · exact key [0x02, 0x28, 0x06, 0x0C] 0x01 [] rfl rfl
  · intro n hn hok hbad
    have hI : initSequence env.portTICK_PERIOD_MS config.pin =
        [] ++ (pinSetup config.pin
          ++ initCommands.flatMap (commandStep env.portTICK_PERIOD_MS config.pin)) := rfl
    refine ⟨_, init_4bit_failure_within env config s hmode hcalloc _ _ _ hI n
      (by rw [gpioCount_pinSetup]; exact hn)
      (by simpa [gpioCount] using hok) (by simpa [gpioCount] using hbad), ?_⟩
    simp only [List.append_assoc, List.append_nil]

/-- Witness for C3: the third command (0x06) fails at its first GPIO call,
the 43rd of the run. -/
theorem init_4bit_aborts_at_first_failing_command_witness :
    (1 ≤ 3 ∧ 3 ≤ 5 ∧ 0 < 14 ∧
      (∀ i, i < 14 + 14 * (3 - 1) + 0 → (envFailAt 1 42).gpio (st0.gpioCalls + i) = STM_OK) ∧
      (envFailAt 1 42).gpio (st0.gpioCalls + (14 + 14 * (3 - 1) + 0)) ≠ STM_OK) ∧
    ∃ s', lcd_hd44780_init (envFailAt 1 42)
        ⟨0, lcd_hd44780_comm_mode_t.LCD_HD44780_COMM_MODE_4BIT, examplePin⟩ st0
          = Except.ok (none, s') ∧
      s'.trace = [Event.calloc true] ++ pinSetup examplePin
        ++ commandStep 1 examplePin 0x02 ++ commandStep 1 examplePin 0x28
        ++ [Event.setLevel 0 0 false] ++ [Event.free] :=
  have hyp : (∀ i, i < 14 + 14 * (3 - 1) + 0 →
        (envFailAt 1 42).gpio (st0.gpioCalls + i) = STM_OK) ∧
      (envFailAt 1 42).gpio (st0.gpioCalls + (14 + 14 * (3 - 1) + 0)) ≠ STM_OK := by
    refine ⟨fun i hi => ?_, by decide⟩
    have : st0.gpioCalls + i ≠ 42 := by simp only [st0]; omega
    simp [envFailAt, this]
  have h := (init_4bit_aborts_at_first_failing_command (envFailAt 1 42)
    ⟨0, lcd_hd44780_comm_mode_t.LCD_HD44780_COMM_MODE_4BIT, examplePin⟩ st0 rfl rfl).1
      3 0 (by decide) (by decide) (by decide) hyp.1 hyp.2
  ⟨⟨by decide, by decide, by decide, hyp⟩,
    match h with
    | ⟨s', h1, h2⟩ => ⟨s', h1, by rw [h2]; rfl⟩⟩

/-! ## Operations on a handle -/

theorem mutex_lock_total (env : Env) (x : Nat) :
    ∀ (fuel : Nat) (s : St), (∃ k, k < fuel ∧ env.take (s.takes + k) = true) →
      ∃ j, mutex_lock env x fuel s =
        Except.ok { trace := s.trace ++ lockEvents x j, gpioCalls := s.gpioCalls,
                    takes := s.takes + j + 1 } := by
  intro fuel
  induction fuel with
  | zero => intro s ⟨k, hk, _⟩; omega
  | succ fuel ih =>
    intro s ⟨k, hk, hpass⟩
    by_cases h0 : env.take s.takes = true
    · refine ⟨0, ?_⟩
      simp [mutex_lock, xSemaphoreTake, h0, lockEvents]
    · have h0f : env.take s.takes = false := by simpa using h0
      have hk0 : k ≠ 0 := by
        intro hz; subst hz; simp [h0f] at hpass
      obtain ⟨j, hj⟩ := ih
        { trace := s.trace ++ [Event.take x false], gpioCalls := s.gpioCalls,
          takes := s.takes + 1 }
        ⟨k - 1, by omega, by
          have e1 : s.takes + 1 + (k - 1) = s.takes + k := by omega
          simp only [e1]; exact hpass⟩
      refine ⟨j + 1, ?_⟩
      simp only [mutex_lock, xSemaphoreTake, h0f, bne_iff_ne, ne_eq, Bool.false_eq_true,
        not_false_eq_true, if_true]
      rw [hj]
      simp only [lockEvents, List.replicate_succ, List.append_assoc, List.cons_append,
        List.nil_append, List.singleton_append]
      congr 2
      omega

theorem attemptEach_takes (env : Env) (pin : lcd_hd44780_pin_t) (rs : Bool) (bytes : List Nat) :
    ∀ s : St, (s.attemptEach env pin rs bytes).takes = s.takes := by
  induction bytes with
  | nil => intro s; rfl
  | cons b bytes ih => intro s; simp only [St.attemptEach, List.foldl_cons] at ih ⊢; rw [ih]; rfl

theorem write_string_loop_eq (env : Env) (handle : lcd_hd44780_t)
    (hdata : handle._write_data = some _write_data_4bit) (str : List Nat) :
    ∀ s : St, 0 ∈ str →
      write_string_loop env handle str s =
        Except.ok (s.attemptEach env handle.pin true (str.takeWhile (fun c => c != 0))) := by
  induction str with
  | nil => intro s h; simp at h
  | cons c str ih =>
    intro s h
    by_cases hc : c = 0
    · subst hc
      simp [write_string_loop, St.attemptEach]
    · have hmem : 0 ∈ str := by
        rcases List.mem_cons.1 h with h1 | h1
        · exact absurd h1.symm hc
        · exact h1
      have hc2 : (c != 0) = true := by simpa using hc
      simp only [write_string_loop, hc2, if_true, deref, hdata, write_data_4bit_eq,
        List.takeWhile_cons]
      rw [ih _ hmem]
      simp [St.attemptEach]

theorem attemptEach_of_succeeds (env : Env) (pin : lcd_hd44780_pin_t) (rs : Bool)
    (bytes : List Nat) :
    ∀ s : St, (∀ i, i < 14 * bytes.length → env.gpio (s.gpioCalls + i) = 0) →
      s.attemptEach env pin rs bytes =
        { trace := s.trace ++ bytes.flatMap (byteTransfer env.portTICK_PERIOD_MS pin rs),
          gpioCalls := s.gpioCalls + 14 * bytes.length, takes := s.takes } := by
  induction bytes with
  | nil => intro s _; simp [St.attemptEach]
  | cons b bytes ih =>
    intro s h
    have h1 := (attempt_of_succeeds env s (byteTransfer env.portTICK_PERIOD_MS pin rs b)
      (by
        rw [gpioCount_byteTransfer]
        intro i hi
        exact h i (by simp only [List.length_cons]; omega))).2
    simp only [St.attemptEach, List.foldl_cons] at ih ⊢
    rw [h1, ih]
    · simp only [gpioCount_byteTransfer, List.flatMap_cons, List.append_assoc, List.length_cons]
      congr 1
      omega
    · intro i hi
      simp only [gpioCount_byteTransfer]
      have := h (14 + i) (by simp only [List.length_cons]; omega)
      have e1 : s.gpioCalls + (14 + i) = s.gpioCalls + 14 + i := by omega
      rw [e1] at this
      exact this

theorem write_string_eq (env : Env) (fuel : Nat) (handle : lcd_hd44780_t) (str : List Nat)
    (s : St) (hdata : handle._write_data = some _write_data_4bit) (hzero : 0 ∈ str)
    (hlock : ∃ k, k < fuel ∧ env.take (s.takes + k) = true) :
    ∃ j, lcd_hd44780_write_string env fuel handle str s =
      Except.ok (STM_OK,
        mutex_unlock handle.lock
          (St.attemptEach env handle.pin true
            { trace := s.trace ++ lockEvents handle.lock j, gpioCalls := s.gpioCalls,
              takes := s.takes + j + 1 }
            (str.takeWhile (fun c => c != 0)))) := by
  obtain ⟨j, hj⟩ := mutex_lock_total env handle.lock fuel s hlock
  refine ⟨j, ?_⟩
  simp only [lcd_hd44780_write_string, hj, Except.bind,
    write_string_loop_eq env handle hdata str _ hzero]

theorem clear_eq (env : Env) (fuel : Nat) (handle : lcd_hd44780_t) (s : St)
    (hcmd : handle._write_cmd = some _write_cmd_4bit)
    (hlock : ∃ k, k < fuel ∧ env.take (s.takes + k) = true) :
    ∃ j, lcd_hd44780_clear env fuel handle s =
      Except.ok (STM_OK,
        mutex_unlock handle.lock (vTaskDelay (2 / env.portTICK_PERIOD_MS)
          (St.attempt env
            { trace := s.trace ++ lockEvents handle.lock j, gpioCalls := s.gpioCalls,
              takes := s.takes + j + 1 }
            (byteTransfer env.portTICK_PERIOD_MS handle.pin false 0x01)))) := by
  obtain ⟨j, hj⟩ := mutex_lock_total env handle.lock fuel s hlock
  refine ⟨j, ?_⟩
  simp only [lcd_hd44780_clear, hj, Except.bind, deref, hcmd, write_cmd_4bit_eq]

theorem home_eq (env : Env) (fuel : Nat) (handle : lcd_hd44780_t) (s : St)
    (hcmd : handle._write_cmd = some _write_cmd_4bit)
    (hlock : ∃ k, k < fuel ∧ env.take (s.takes + k) = true) :
    ∃ j, lcd_hd44780_home env fuel handle s =
      Except.ok (STM_OK,
        mutex_unlock handle.lock (vTaskDelay (2 / env.portTICK_PERIOD_MS)
          (St.attempt env
            { trace := s.trace ++ lockEvents handle.lock j, gpioCalls := s.gpioCalls,
              takes := s.takes + j + 1 }
            (byteTransfer env.portTICK_PERIOD_MS handle.pin false 0x02)))) := by
  obtain ⟨j, hj⟩ := mutex_lock_total env handle.lock fuel s hlock
  refine ⟨j, ?_⟩
  simp only [lcd_hd44780_home, hj, Except.bind, deref, hcmd, write_cmd_4bit_eq]

/-- C4: for a valid handle whose lock is obtained and a byte sequence that
contains a zero byte, when the GPIO calls succeed, `lcd_hd44780_write_string`
returns `STM_OK` after exactly: the taking of the lock, one complete transfer
to the data register (RS high) for each byte before the first zero byte, in
order, and the release of the lock; nothing is sent for the zero byte or for
what follows it, and nothing goes to the command register. -/
theorem write_string_sends_bytes_before_first_zero (env : Env) (fuel : Nat)
    (handle : lcd_hd44780_t) (str : List Nat) (s : St)
    (hvalid : handle.valid) (hzero : 0 ∈ str)
    (hlock : ∃ k, k < fuel ∧ env.take (s.takes + k) = true)
    (hgpio : ∀ i, i < 14 * (str.takeWhile (fun c => c != 0)).length →
      env.gpio (s.gpioCalls + i) = STM_OK) :
    ∃ j s', lcd_hd44780_write_string env fuel handle str s = Except.ok (STM_OK, s') ∧
      s'.trace = s.trace
        ++ (List.replicate j (Event.take handle.lock false) ++ [Event.take handle.lock true])
        ++ (str.takeWhile (fun c => c != 0)).flatMap
            (byteTransfer env.portTICK_PERIOD_MS handle.pin true)
        ++ [Event.give handle.lock] := by
  obtain ⟨j, hj⟩ := write_string_eq env fuel handle str s hvalid.2 hzero hlock
  refine ⟨j, _, hj, ?_⟩
  rw [attemptEach_of_succeeds env handle.pin true _
    { trace := s.trace ++ lockEvents handle.lock j, gpioCalls := s.gpioCalls,
      takes := s.takes + j + 1 } hgpio]
  simp only [mutex_unlock, lockEvents]

/-- Witness for C4: the bytes 0x41, 0x42, 0x00, 0x43 give exactly the two data
transfers of 0x41 and 0x42, and the bytes of "LCD size: 16x2" with their
terminator give exactly fourteen data transfers. -/
theorem write_string_sends_bytes_before_first_zero_witness :
    (exampleHandle.valid ∧ 0 ∈ [0x41, 0x42, 0x00, 0x43] ∧
      (∃ k, k < 1 ∧ (envOk 1).take (st0.takes + k) = true)) ∧
    (∃ j s', lcd_hd44780_write_string (envOk 1) 1 exampleHandle [0x41, 0x42, 0x00, 0x43] st0
        = Except.ok (STM_OK, s') ∧
      s'.trace = (List.replicate j (Event.take 1 false) ++ [Event.take 1 true])
        ++ (byteTransfer 1 examplePin true 0x41 ++ byteTransfer 1 examplePin true 0x42)
        ++ [Event.give 1]) ∧
    (∃ j s', lcd_hd44780_write_string (envOk 1) 1 exampleHandle
        [0x4C, 0x43, 0x44, 0x20, 0x73, 0x69, 0x7A, 0x65, 0x3A, 0x20, 0x31, 0x36, 0x78, 0x32, 0x00]
        st0 = Except.ok (STM_OK, s') ∧
      s'.trace = (List.replicate j (Event.take 1 false) ++ [Event.take 1 true])
        ++ [0x4C, 0x43, 0x44, 0x20, 0x73, 0x69, 0x7A, 0x65, 0x3A, 0x20, 0x31, 0x36, 0x78,
              0x32].flatMap (byteTransfer 1 examplePin true)
        ++ [Event.give 1]) :=
  ⟨⟨⟨rfl, rfl⟩, by decide, ⟨0, by decide, rfl⟩⟩,
    write_string_sends_bytes_before_first_zero (envOk 1) 1 exampleHandle
      [0x41, 0x42, 0x00, 0x43] st0 ⟨rfl, rfl⟩ (by decide) ⟨0, by decide, rfl⟩ (fun _ _ => rfl),
    write_string_sends_bytes_before_first_zero (envOk 1) 1 exampleHandle
      [0x4C, 0x43, 0x44, 0x20, 0x73, 0x69, 0x7A, 0x65, 0x3A, 0x20, 0x31, 0x36, 0x78, 0x32, 0x00]
      st0 ⟨rfl, rfl⟩ (by decide) ⟨0, by decide, rfl⟩ (fun _ _ => rfl)⟩

/-- C6 (as amended): for a valid handle whose lock is obtained and a positive
tick period, `lcd_hd44780_clear` and `lcd_hd44780_home` each return `STM_OK`
after exactly: the taking of the lock, one attempted transfer of the command
byte (0x01 for clear, 0x02 for home; the complete transfer when its GPIO calls
succeed), one delay of `2 / portTICK_PERIOD_MS` ticks, and the release of the
lock.  The requested duration is at least 2 ms when the tick period is 1 or
2 ms, and the requested tick count is 0 when the tick period exceeds 2 ms. -/
theorem clear_home_send_one_command_then_delay (env : Env) (fuel : Nat)
    (handle : lcd_hd44780_t) (s : St) (hvalid : handle.valid)
    (hp : 0 < env.portTICK_PERIOD_MS)
    (hlock : ∃ k, k < fuel ∧ env.take (s.takes + k) = true) :
    (∃ j s', lcd_hd44780_clear env fuel handle s = Except.ok (STM_OK, s') ∧
      s'.trace = s.trace
        ++ (List.replicate j (Event.take handle.lock false) ++ [Event.take handle.lock true])
        ++ performed env s.gpioCalls (byteTransfer env.portTICK_PERIOD_MS handle.pin false 0x01)
        ++ [Event.delay (2 / env.portTICK_PERIOD_MS), Event.give handle.lock]) ∧
    (∃ j s', lcd_hd44780_home env fuel handle s = Except.ok (STM_OK, s') ∧
      s'.trace = s.trace
        ++ (List.replicate j (Event.take handle.lock false) ++ [Event.take handle.lock true])
        ++ performed env s.gpioCalls (byteTransfer env.portTICK_PERIOD_MS handle.pin false 0x02)
        ++ [Event.delay (2 / env.portTICK_PERIOD_MS), Event.give handle.lock]) ∧
    (∀ B, (∀ i, i < 14 → env.gpio (s.gpioCalls + i) = STM_OK) →
      performed env s.gpioCalls (byteTransfer env.portTICK_PERIOD_MS handle.pin false B)
        = byteTransfer env.portTICK_PERIOD_MS handle.pin false B) ∧
    (env.portTICK_PERIOD_MS ≤ 2 →
      2 ≤ 2 / env.portTICK_PERIOD_MS * env.portTICK_PERIOD_MS) ∧
    (2 < env.portTICK_PERIOD_MS → 2 / env.portTICK_PERIOD_MS = 0) := by
  obtain ⟨j1, h1⟩ := clear_eq env fuel handle s hvalid.1 hlock
  obtain ⟨j2, h2⟩ := home_eq env fuel handle s hvalid.1 hlock
  refine ⟨⟨j1, _, h1, ?_⟩, ⟨j2, _, h2, ?_⟩, ?_, ?_, ?_⟩
  · simp only [mutex_unlock, vTaskDelay, St.attempt, lockEvents, List.append_assoc,
      List.cons_append, List.nil_append]
  · simp only [mutex_unlock, vTaskDelay, St.attempt, lockEvents, List.append_assoc,
      List.cons_append, List.nil_append]
  · intro B hgpio
    exact performed_of_succeeds env _ _
      ((succeeds_iff env _ _).2 (by rw [gpioCount_byteTransfer]; exact hgpio))
  · intro hle
    have hcases : env.portTICK_PERIOD_MS = 1 ∨ env.portTICK_PERIOD_MS = 2 := by omega
    rcases hcases with h | h <;> rw [h]
  · intro hlt
    exact Nat.div_eq_of_lt hlt

/-- Witness for C6 (as amended): the example handle at a 2 ms tick. -/
theorem clear_home_send_one_command_then_delay_witness :
    (exampleHandle.valid ∧ 0 < (envOk 2).portTICK_PERIOD_MS ∧
      (∃ k, k < 1 ∧ (envOk 2).take (st0.takes + k) = true)) ∧
    (∃ j s', lcd_hd44780_clear (envOk 2) 1 exampleHandle st0 = Except.ok (STM_OK, s') ∧
      s'.trace = (List.replicate j (Event.take 1 false) ++ [Event.take 1 true])
        ++ byteTransfer 2 examplePin false 0x01
        ++ [Event.delay 1, Event.give 1]) ∧
    2 ≤ 1 * (envOk 2).portTICK_PERIOD_MS :=
  have h := clear_home_send_one_command_then_delay (envOk 2) 1 exampleHandle st0 ⟨rfl, rfl⟩
    (by decide) ⟨0, by decide, rfl⟩
  ⟨⟨⟨rfl, rfl⟩, by decide, ⟨0, by decide, rfl⟩⟩,
    (match h.1 with
     | ⟨j, s', h1, h2⟩ => ⟨j, s', h1, by
        rw [h2, h.2.2.1 0x01 (fun _ _ => rfl)]
        simp only [st0, List.nil_append]
        rfl⟩),
    h.2.2.2.1 (by decide)⟩

/-- Counterexample for C6 as stated: at a tick period of 10 ms the example
handle's `lcd_hd44780_clear` and `lcd_hd44780_home` request a wait of
`2 / 10 = 0` ticks before releasing the lock, that is 0 ms, and so does every
other delay of the call. -/
theorem clear_home_wait_is_zero_at_10ms_tick :
    0 < (envOk 10).portTICK_PERIOD_MS ∧
    lcd_hd44780_clear (envOk 10) 1 exampleHandle st0 =
      Except.ok (STM_OK,
        { trace := [Event.take 1 true] ++ byteTransfer 10 examplePin false 0x01
            ++ [Event.delay 0, Event.give 1],
          gpioCalls := 14, takes := 1 }) ∧
    lcd_hd44780_home (envOk 10) 1 exampleHandle st0 =
      Except.ok (STM_OK,
        { trace := [Event.take 1 true] ++ byteTransfer 10 examplePin false 0x02
            ++ [Event.delay 0, Event.give 1],
          gpioCalls := 14, takes := 1 }) ∧
    (∀ B t, Event.delay t ∈ [Event.take 1 true] ++ byteTransfer 10 examplePin false B
        ++ [Event.delay 0, Event.give 1] → t = 0) ∧
    ¬ (2 ≤ 0 * (envOk 10).portTICK_PERIOD_MS) := by
  refine ⟨by decide, rfl, rfl, ?_, by decide⟩
  intro B t ht
  simp [byteTransfer] at ht
  exact ht

/-! ## Results that are discarded -/

/-- C7 (evaluation at the failing input): with the example handle, when the
first GPIO call of the command transfer fails, the transfer returns
`STM_FAIL`, yet `lcd_hd44780_clear` and `lcd_hd44780_home` return `STM_OK`. -/
theorem clear_home_return_ok_after_failed_transfer :
    (_write_cmd_4bit (envFailAt 1 0) examplePin 0x01
      { trace := [Event.take 1 true], gpioCalls := 0, takes := 1 }).1 = STM_FAIL ∧
    lcd_hd44780_clear (envFailAt 1 0) 1 exampleHandle st0 =
      Except.ok (STM_OK,
        { trace := [Event.take 1 true, Event.setLevel 0 0 false, Event.delay 2, Event.give 1],
          gpioCalls := 1, takes := 1 }) ∧
    (_write_cmd_4bit (envFailAt 1 0) examplePin 0x02
      { trace := [Event.take 1 true], gpioCalls := 0, takes := 1 }).1 = STM_FAIL ∧
    lcd_hd44780_home (envFailAt 1 0) 1 exampleHandle st0 =
      Except.ok (STM_OK,
        { trace := [Event.take 1 true, Event.setLevel 0 0 false, Event.delay 2, Event.give 1],
          gpioCalls := 1, takes := 1 }) :=
  ⟨rfl, rfl, rfl, rfl⟩

/-- C5 (evaluation at the failing input): with the example handle and the
bytes 0x41, 0x42, 0x00, when the first GPIO call of the transfer of 0x41
fails, that transfer returns `STM_FAIL`, yet `lcd_hd44780_write_string` goes
on to transfer 0x42 completely and returns `STM_OK`. -/
theorem write_string_continues_after_failed_byte :
    (_write_data_4bit (envFailAt 1 0) examplePin 0x41
      { trace := [Event.take 1 true], gpioCalls := 0, takes := 1 }).1 = STM_FAIL ∧
    lcd_hd44780_write_string (envFailAt 1 0) 1 exampleHandle [0x41, 0x42, 0x00] st0 =
      Except.ok (STM_OK,
        { trace := [Event.take 1 true, Event.setLevel 0 0 true]
            ++ byteTransfer 1 examplePin true 0x42 ++ [Event.give 1],
          gpioCalls := 15, takes := 1 }) :=
  ⟨rfl, rfl⟩

/-- C8 (evaluation at the failing input): for a configuration whose mode is
8-bit, serial or any other value, with the allocation succeeding,
`lcd_hd44780_init` does not return `NULL`: it calls through the function
pointer `_init_func`, which was never assigned. -/
theorem init_other_modes_call_unset_pointer :
    lcd_hd44780_init (envOk 1)
      ⟨0, lcd_hd44780_comm_mode_t.LCD_HD44780_COMM_MODE_8BIT, examplePin⟩ st0
        = Except.error Fault.unsetPointer ∧
    lcd_hd44780_init (envOk 1)
      ⟨0, lcd_hd44780_comm_mode_t.LCD_HD44780_COMM_MODE_SERIAL, examplePin⟩ st0
        = Except.error Fault.unsetPointer ∧
    lcd_hd44780_init (envOk 1)
      ⟨0, lcd_hd44780_comm_mode_t.other 3, examplePin⟩ st0
        = Except.error Fault.unsetPointer :=
  ⟨rfl, rfl, rfl⟩

/-! ## Lock discipline -/

theorem lockCycles_lockEvents (x j : Nat) (rest : List Event) :
    lockCycles x false (lockEvents x j ++ rest) = lockCycles x true rest := by
  induction j with
  | zero => simp [lockEvents, lockCycles]
  | succ j ih =>
    have e1 : lockEvents x (j + 1) ++ rest = Event.take x false :: (lockEvents x j ++ rest) := by
      simp [lockEvents, List.replicate_succ]
    rw [e1]
    simp only [lockCycles, and_self, if_true]
    exact ih

theorem lockCycles_pinWork (x : Nat) (body rest : List Event)
    (h : ∀ e, e ∈ body → e.isPinWork = true) :
    lockCycles x true (body ++ rest) = lockCycles x true rest := by
  induction body with
  | nil => rfl
  | cons e body ih =>
    have he := h e (List.mem_cons_self _ _)
    have ih2 := ih (fun e2 h2 => h e2 (List.mem_cons_of_mem _ h2))
    rw [List.cons_append]
    cases e <;> simp [Event.isPinWork] at he <;> simp [lockCycles, ih2]

theorem lockCycles_give (x : Nat) (rest : List Event) :
    lockCycles x true (Event.give x :: rest) = (lockCycles x false rest).map (· + 1) := by
  simp [lockCycles]

theorem performed_mem (env : Env) (es : List Event) :
    ∀ c e, e ∈ performed env c es → e ∈ es := by
  induction es with
  | nil => intro c e h; simp [performed] at h
  | cons a es ih =>
    intro c e h
    by_cases hg : a.isGpio = true
    · by_cases h0 : env.gpio c = 0
      · simp only [performed, hg, h0, if_true, List.mem_cons] at h
        rcases h with h | h
        · exact h ▸ List.mem_cons_self _ _
        · exact List.mem_cons_of_mem _ (ih _ _ h)
      · simp only [performed, hg, h0, if_true, if_false, List.mem_singleton] at h
        exact h ▸ List.mem_cons_self _ _
    · have hg2 : a.isGpio = false := by simpa using hg
      simp only [performed, hg2, Bool.false_eq_true, if_false, List.mem_cons] at h
      rcases h with h | h
      · exact h ▸ List.mem_cons_self _ _
      · exact List.mem_cons_of_mem _ (ih _ _ h)

theorem byteTransfer_pinWork (p : Nat) (pin : lcd_hd44780_pin_t) (rs : Bool) (B : Nat) :
    ∀ e, e ∈ byteTransfer p pin rs B → e.isPinWork = true := by
  intro e he
  simp only [byteTransfer, List.mem_cons, List.mem_singleton, List.not_mem_nil, or_false] at he
  rcases he with h | h | h | h | h | h | h | h | h | h | h | h | h | h | h | h | h | h <;>
    rw [h] <;> rfl

theorem attempt_byteTransfer_shape (env : Env) (pin : lcd_hd44780_pin_t) (rs : Bool) (B : Nat)
    (s : St) :
    ∃ body, (s.attempt env (byteTransfer env.portTICK_PERIOD_MS pin rs B)).trace = s.trace ++ body ∧
      (s.attempt env (byteTransfer env.portTICK_PERIOD_MS pin rs B)).takes = s.takes ∧
      ∀ e, e ∈ body → e.isPinWork = true :=
  ⟨_, rfl, rfl, fun e he => byteTransfer_pinWork _ _ _ _ e (performed_mem env _ _ e he)⟩

theorem attemptEach_shape (env : Env) (pin : lcd_hd44780_pin_t) (rs : Bool) (bytes : List Nat) :
    ∀ s : St, ∃ body, (s.attemptEach env pin rs bytes).trace = s.trace ++ body ∧
      ∀ e, e ∈ body → e.isPinWork = true := by
  induction bytes with
  | nil => intro s; exact ⟨[], by simp [St.attemptEach], by simp⟩
  | cons b bytes ih =>
    intro s
    obtain ⟨b1, h1, _, h3⟩ := attempt_byteTransfer_shape env pin rs b s
    obtain ⟨b2, h4, h5⟩ := ih (s.attempt env (byteTransfer env.portTICK_PERIOD_MS pin rs b))
    refine ⟨b1 ++ b2, ?_, ?_⟩
    · simp only [St.attemptEach, List.foldl_cons] at h4 ⊢
      rw [h4, h1, List.append_assoc]
    · intro e he
      rcases List.mem_append.1 he with h | h
      · exact h3 e h
      · exact h5 e h

theorem op_run_shape (env : Env) (fuel : Nat) (handle : lcd_hd44780_t) (op : Op) (s : St)
    (hvalid : handle.valid) (hterm : op.terminated)
    (hlock : ∃ k, k < fuel ∧ env.take (s.takes + k) = true) :
    ∃ j body s', op.run env fuel handle s = Except.ok (STM_OK, s') ∧
      s'.trace = s.trace ++ (lockEvents handle.lock j ++ (body ++ [Event.give handle.lock])) ∧
      s'.takes = s.takes + j + 1 ∧
      ∀ e, e ∈ body → e.isPinWork = true := by
  cases op with
  | clear =>
    obtain ⟨j, hj⟩ := clear_eq env fuel handle s hvalid.1 hlock
    obtain ⟨b, h1, h2, h3⟩ := attempt_byteTransfer_shape env handle.pin false 0x01
      { trace := s.trace ++ lockEvents handle.lock j, gpioCalls := s.gpioCalls,
        takes := s.takes + j + 1 }
    refine ⟨j, b ++ [Event.delay (2 / env.portTICK_PERIOD_MS)], _, hj, ?_, ?_, ?_⟩
    · simp only [mutex_unlock, vTaskDelay, h1, List.append_assoc]
    · simp only [mutex_unlock, vTaskDelay, h2]
    · intro e he
      rcases List.mem_append.1 he with h | h
      · exact h3 e h
      · rw [List.mem_singleton.1 h]; rfl
  | home =>
    obtain ⟨j, hj⟩ := home_eq env fuel handle s hvalid.1 hlock
    obtain ⟨b, h1, h2, h3⟩ := attempt_byteTransfer_shape env handle.pin false 0x02
      { trace := s.trace ++ lockEvents handle.lock j, gpioCalls := s.gpioCalls,
        takes := s.takes + j + 1 }
    refine ⟨j, b ++ [Event.delay (2 / env.portTICK_PERIOD_MS)], _, hj, ?_, ?_, ?_⟩
    · simp only [mutex_unlock, vTaskDelay, h1, List.append_assoc]
    · simp only [mutex_unlock, vTaskDelay, h2]
    · intro e he
      rcases List.mem_append.1 he with h | h
      · exact h3 e h
      · rw [List.mem_singleton.1 h]; rfl
  | write_string str =>
    obtain ⟨j, hj⟩ := write_string_eq env fuel handle str s hvalid.2 hterm hlock
    obtain ⟨b, h1, h3⟩ := attemptEach_shape env handle.pin true
      (str.takeWhile (fun c => c != 0))
      { trace := s.trace ++ lockEvents handle.lock j, gpioCalls := s.gpioCalls,
        takes := s.takes + j + 1 }
    refine ⟨j, b, _, hj, ?_, ?_, h3⟩
    · simp only [mutex_unlock, h1, List.append_assoc]
    · simp only [mutex_unlock, attemptEach_takes]

theorem lockCycles_op_segment (x j : Nat) (body rest : List Event)
    (h : ∀ e, e ∈ body → e.isPinWork = true) :
    lockCycles x false ((lockEvents x j ++ (body ++ [Event.give x])) ++ rest) =
      (lockCycles x false rest).map (· + 1) := by
  have e1 : (lockEvents x j ++ (body ++ [Event.give x])) ++ rest =
      lockEvents x j ++ (body ++ (Event.give x :: rest)) := by simp
  rw [e1, lockCycles_lockEvents, lockCycles_pinWork x body _ h, lockCycles_give]

/-- C10: for a valid handle whose lock is obtained within the allowed number
of attempts, whatever the GPIO calls return: each of `lcd_hd44780_clear`,
`lcd_hd44780_home` and `lcd_hd44780_write_string` (on a terminated string)
returns after exactly: failed attempts to take the lock, one successful take,
GPIO level calls and delays only, and one release of the lock as the last
event; and the events of any sequence of these operations on the handle obey
the lock discipline, every GPIO call and delay lying between a successful
take and the next release, with as many releases as operations. -/
theorem operations_bracket_pin_work_with_the_lock (env : Env) (fuel : Nat)
    (handle : lcd_hd44780_t) (hvalid : handle.valid)
    (hlock : ∀ c, ∃ k, k < fuel ∧ env.take (c + k) = true) :
    (∀ (op : Op) (s : St), op.terminated →
      ∃ r s' j body, op.run env fuel handle s = Except.ok (r, s') ∧
        s'.trace = s.trace
          ++ (List.replicate j (Event.take handle.lock false) ++ [Event.take handle.lock true])
          ++ body ++ [Event.give handle.lock] ∧
        ∀ e, e ∈ body → e.isPinWork = true) ∧
    (∀ (ops : List Op) (s : St), (∀ op, op ∈ ops → op.terminated) →
      ∃ s' t, runOps env fuel handle ops s = Except.ok s' ∧
        s'.trace = s.trace ++ t ∧
        lockCycles handle.lock false t = some ops.length) := by
  constructor
  · intro op s hterm
    obtain ⟨j, body, s', h1, h2, _, h4⟩ :=
      op_run_shape env fuel handle op s hvalid hterm (hlock s.takes)
    refine ⟨STM_OK, s', j, body, h1, ?_, h4⟩
    rw [h2]
    simp only [lockEvents, List.append_assoc]
  · intro ops
    induction ops with
    | nil =>
      intro s _
      exact ⟨s, [], rfl, by simp, rfl⟩
    | cons op ops ih =>
      intro s hterm
      obtain ⟨j, body, s1, h1, h2, _, h4⟩ :=
        op_run_shape env fuel handle op s hvalid (hterm op (List.mem_cons_self _ _))
          (hlock s.takes)
      obtain ⟨s2, t, h5, h6, h7⟩ := ih s1 (fun o ho => hterm o (List.mem_cons_of_mem _ ho))
      refine ⟨s2, (lockEvents handle.lock j ++ (body ++ [Event.give handle.lock])) ++ t, ?_, ?_, ?_⟩
      · simp only [runOps, h1, Except.bind, h5]
      · rw [h6, h2]
        simp only [List.append_assoc]
      · rw [lockCycles_op_segment handle.lock j body t h4, h7]
        rfl

/-- Witness for C10: clear, home and a one-character string on the example
handle, while the very first GPIO call fails. -/
theorem operations_bracket_pin_work_with_the_lock_witness :
    (exampleHandle.valid ∧ ∀ c, ∃ k, k < 1 ∧ (envFailAt 1 0).take (c + k) = true) ∧
    (∀ op, op ∈ [Op.clear, Op.home, Op.write_string [0x41, 0x00]] → op.terminated) ∧
    ∃ s' t, runOps (envFailAt 1 0) 1 exampleHandle
        [Op.clear, Op.home, Op.write_string [0x41, 0x00]] st0 = Except.ok s' ∧
      s'.trace = st0.trace ++ t ∧
      lockCycles exampleHandle.lock false t = some 3 :=
  have hterm : ∀ op, op ∈ [Op.clear, Op.home, Op.write_string [0x41, 0x00]] → op.terminated := by
    intro op hop
    simp only [List.mem_cons, List.mem_singleton, List.not_mem_nil, or_false] at hop
    rcases hop with h | h | h <;> rw [h] <;> simp [Op.terminated]
  ⟨⟨⟨rfl, rfl⟩, fun _ => ⟨0, by decide, rfl⟩⟩, hterm,
    (operations_bracket_pin_work_with_the_lock (envFailAt 1 0) 1 exampleHandle ⟨rfl, rfl⟩
      (fun _ => ⟨0, by decide, rfl⟩)).2 [Op.clear, Op.home, Op.write_string [0x41, 0x00]] st0 hterm⟩

end LcdHd44780
